import Mathlib

/-!
HeyStack nRF5x firmware: identity derivation, status byte and operating mode.

A shallow embedding of `ble_stack.c` / `ble_stack.h` and `config_service.c` /
`config_service.h`.

* The C globals of `ble_stack.c` become the fields of `State`.
* `uint8_t` / `uint16_t` values are natural numbers; every store into a
  `uint8_t` object goes through `u8` (reduction modulo 256).
* The firmware targets the ARM Cortex-M cores of the nRF5x family, whose ABI
  makes plain `char` an unsigned 8-bit type, so reading `key[i]` through
  `const char *key` yields the byte value `0..255`.
* Calls into the SoftDevice (`sd_ble_*`) are recorded, in order, in
  `State.sd_calls`; what the SoftDevice answers is an arbitrary function of the
  calls made so far (`SoftDevice`).
* `APP_ERROR_CHECK` with a code other than `NRF_SUCCESS` ends the run
  (`Outcome.fault`).
-/

namespace HeyStack

/-! ## Machine integers -/

/-- Conversion to `uint8_t`. -/
def u8 (n : Nat) : Nat := n % 256

/-- Bitwise complement `~x` of a non-negative `int` constant, read as a 32-bit
two's complement pattern. -/
def bnot (x : Nat) : Nat := 0xFFFFFFFF ^^^ x

/-! ## Constants of `ble_stack.h` and `config_service.h` -/

def STATUS_FLAG_BATTERY_MASK : Nat := 0b11000000
def STATUS_FLAG_COUNTER_MASK : Nat := 0b00111111
def STATUS_FLAG_MEDIUM_BATTERY : Nat := 0b01000000
def STATUS_FLAG_LOW_BATTERY : Nat := 0b10000000
def STATUS_FLAG_CRITICALLY_LOW_BATTERY : Nat := 0b11000000
def ADVERTISING_INTERVAL : Nat := 1000
def APP_BLE_CONN_CFG_TAG : Nat := 1
def CONFIG_SERVICE_KEY_LENGTH : Nat := 28

/-! ## Constants of the Nordic SDK headers (not part of the repository) -/

/-- Success code of `nrf_error.h`. -/
def NRF_SUCCESS : Nat := 0
/-- Error code `NRF_ERROR_INVALID_STATE` of `nrf_error.h`. -/
def NRF_ERROR_INVALID_STATE : Nat := 8
/-- Error code `NRF_ERROR_NULL` of `nrf_error.h`. -/
def NRF_ERROR_NULL : Nat := 14
/-- Marker for "no connection" of `ble.h`. -/
def BLE_CONN_HANDLE_INVALID : Nat := 0xFFFF
/-- Marker for "no advertising set yet" of `ble_gap.h`. -/
def BLE_GAP_ADV_SET_HANDLE_NOT_SET : Nat := 0xFF
def BLE_HCI_REMOTE_USER_TERMINATED_CONNECTION : Nat := 0x13
def BLE_GAP_SEC_STATUS_PAIRING_NOT_SUPP : Nat := 0x85
/-- The macro `MSEC_TO_UNITS(ms, UNIT_0_625_MS)` of `app_util.h`. -/
def MSEC_TO_UNITS_0_625 (ms : Nat) : Nat := ms * 1000 / 625

/-! ## Data model -/

/-- The enum `ble_operating_mode_t`. -/
inductive ble_operating_mode_t
  | BLE_MODE_CONFIG
  | BLE_MODE_OFFLINE
  deriving DecidableEq, Repr

/-- Advertising types named in `ble_stack.c`; `ADV_TYPE_ZERO` is the value of
the field after `memset(.., 0, ..)` and before any assignment. -/
inductive adv_type_t
  | ADV_TYPE_ZERO
  | BLE_GAP_ADV_TYPE_NONCONNECTABLE_NONSCANNABLE_UNDIRECTED
  | BLE_GAP_ADV_TYPE_CONNECTABLE_SCANNABLE_UNDIRECTED
  | BLE_GAP_ADV_TYPE_ADV_NONCONN_IND
  | BLE_GAP_ADV_TYPE_ADV_IND
  deriving DecidableEq, Repr

/-- The fields of `ble_gap_adv_params_t` the firmware assigns (`duration` is
called `timeout` before SDK 15). -/
structure ble_gap_adv_params_t where
  type : adv_type_t
  interval : Nat
  duration : Nat
  deriving DecidableEq, Repr

/-- Result of `memset(&params, 0, sizeof(params))`. -/
def adv_params_zero : ble_gap_adv_params_t :=
  { type := adv_type_t.ADV_TYPE_ZERO, interval := 0, duration := 0 }

/-- The struct `ble_gatts_char_handles_t` of the SDK. -/
structure ble_gatts_char_handles_t where
  value_handle : Nat
  user_desc_handle : Nat
  cccd_handle : Nat
  sccd_handle : Nat
  deriving DecidableEq, Repr

/-- The struct `config_service_s`; the function pointer `key_write_handler` is
`none` when it is `NULL` and otherwise names the registered callback. -/
structure config_service_t where
  service_handle : Nat
  key_write_handles : ble_gatts_char_handles_t
  key_count_handles : ble_gatts_char_handles_t
  uuid_type : Nat
  conn_handle : Nat
  key_write_handler : Option Nat
  key_count : Nat
  deriving DecidableEq, Repr

/-- Zero-initialised `config_service_t` (a C object of static storage). -/
def config_service_zero : config_service_t :=
  { service_handle := 0,
    key_write_handles := ⟨0, 0, 0, 0⟩,
    key_count_handles := ⟨0, 0, 0, 0⟩,
    uuid_type := 0,
    conn_handle := 0,
    key_write_handler := none,
    key_count := 0 }

/-- One invocation `handler(p_service, key_data, length)` of the registered
key-write callback. -/
structure key_write_call where
  handler : Nat
  service : config_service_t
  key_data : List Nat
  length : Nat
  deriving DecidableEq, Repr

/-- Event identifiers of `ble_evt_t.header.evt_id` that the firmware switches
on; every other identifier is `other`. -/
inductive evt_id_t
  | BLE_GAP_EVT_CONNECTED
  | BLE_GAP_EVT_DISCONNECTED
  | BLE_GAP_EVT_SEC_PARAMS_REQUEST
  | BLE_GATTS_EVT_SYS_ATTR_MISSING
  | BLE_GAP_EVT_ADV_REPORT
  | BLE_GATTS_EVT_WRITE
  | other (id : Nat)
  deriving DecidableEq, Repr

/-- The parts of `ble_evt_t` the firmware reads: the event id, the connection
handle, and the fields `handle`, `len`, `data` of a GATTS write. -/
structure ble_evt_t where
  evt_id : evt_id_t
  conn_handle : Nat
  write_handle : Nat
  write_len : Nat
  write_data : List Nat
  deriving DecidableEq, Repr

/-- A call into the SoftDevice, with the arguments the firmware passes. The
argument `adv_handle : Option Nat` is `none` for the pre-15 SDK signatures,
which have no advertising handle. -/
inductive sd_call
  | sd_ble_gap_tx_power_set (adv_handle : Option Nat) (tx_power : Int)
  | sd_ble_gap_adv_stop (adv_handle : Option Nat)
  | sd_ble_gap_addr_set (addr : List Nat)
  | sd_ble_gap_address_set (addr : List Nat)
  | sd_ble_gap_adv_set_configure (adv_handle : Nat)
      (adv_data : Option (List Nat × Nat)) (params : ble_gap_adv_params_t)
  | sd_ble_gap_adv_start_handle (adv_handle : Nat) (conn_cfg_tag : Nat)
  | sd_ble_gap_adv_start_params (params : ble_gap_adv_params_t)
  | sd_ble_gap_adv_data_set (data : List Nat) (dlen : Nat)
  | ble_advdata_set
  | sd_ble_gap_disconnect (conn_handle : Nat) (hci_status_code : Nat)
  | sd_ble_gap_sec_params_reply (conn_handle : Nat) (sec_status : Nat)
  | sd_ble_gatts_sys_attr_set (conn_handle : Nat)
  deriving DecidableEq, Repr

/-- What the SoftDevice hands back: the returned error code and, for
`sd_ble_gap_adv_set_configure`, the value left in `*p_adv_handle`. -/
structure sd_reply where
  err_code : Nat
  adv_handle : Nat
  deriving DecidableEq, Repr

/-- The SoftDevice as seen by the firmware: any function from the calls made
before and the current call to a reply. -/
abbrev SoftDevice := List sd_call → sd_call → sd_reply

/-- The globals of `ble_stack.c` (and the function-local static
`max_tx_power`), plus the two logs `sd_calls` (SoftDevice calls so far, oldest
first) and `key_write_calls` (callback invocations so far, oldest first). -/
structure State where
  adv_params : ble_gap_adv_params_t
  adv_handle : Nat
  m_current_mode : ble_operating_mode_t
  m_config_service : config_service_t
  m_conn_handle : Nat
  status_flag : Nat
  bt_addr : List Nat
  offline_finding_adv : List Nat
  offline_finding_adv_len : Nat
  max_tx_power : Int
  sd_calls : List sd_call
  key_write_calls : List key_write_call
  deriving DecidableEq, Repr

/-- Initial contents of the array `offline_finding_adv`. -/
def offline_finding_adv_init : List Nat :=
  [ 0x1e,
    0xff,
    0x4c, 0x00,
    0x12, 0x19,
    0x00,
    0x00, 0x00, 0x00, 0x00, 0x00, 0x00, 0x00, 0x00,
    0x00, 0x00, 0x00, 0x00, 0x00, 0x00, 0x00, 0x00,
    0x00, 0x00, 0x00, 0x00, 0x00, 0x00,
    0x00,
    0x00 ]

/-- The state given by the initialisers of the globals. -/
def initial_state : State :=
  { adv_params := adv_params_zero,
    adv_handle := BLE_GAP_ADV_SET_HANDLE_NOT_SET,
    m_current_mode := ble_operating_mode_t.BLE_MODE_CONFIG,
    m_config_service := config_service_zero,
    m_conn_handle := BLE_CONN_HANDLE_INVALID,
    status_flag := 0,
    bt_addr := [0xFF, 0xBB, 0xCC, 0xDD, 0xEE, 0xFF],
    offline_finding_adv := offline_finding_adv_init,
    offline_finding_adv_len := offline_finding_adv_init.length,
    max_tx_power := -1,
    sd_calls := [],
    key_write_calls := [] }

/-! ## Identity encoder -/

/-- The call `memcpy(&dst[d], &src[s], n)` on byte arrays. -/
def memcpy : List Nat → Nat → List Nat → Nat → Nat → List Nat
  | dst, _, _, _, 0 => dst
  | dst, d, src, s, n + 1 => memcpy (dst.set d (src.getD s 0)) (d + 1) src (s + 1) n

/-- Value of a plain `char` object whose byte is `b`, as the operand of an
arithmetic operator. The firmware is built for the ARM cores of the nRF5x
family, whose ABI makes plain `char` unsigned: the value is the byte itself. -/
def char_val (b : Nat) : Nat := b

/-- The value the same byte would have where plain `char` is signed (not the
case on the target; kept to record what the shift in
`fill_adv_template_from_key` relies on). -/
def signed_char_val (b : Nat) : Int := if b < 128 then (b : Int) else (b : Int) - 256

/-- The function `set_addr_from_key`; `key` is read through `const char *`. -/
def set_addr_from_key (key : List Nat) (st : State) : State :=
  let a := st.bt_addr
  let a := a.set 5 (u8 (char_val (key.getD 0 0) ||| 0b11000000))
  let a := a.set 4 (u8 (char_val (key.getD 1 0)))
  let a := a.set 3 (u8 (char_val (key.getD 2 0)))
  let a := a.set 2 (u8 (char_val (key.getD 3 0)))
  let a := a.set 1 (u8 (char_val (key.getD 4 0)))
  let a := a.set 0 (u8 (char_val (key.getD 5 0)))
  { st with bt_addr := a }

/-- The function `fill_adv_template_from_key`; `memcpy` copies the bytes as they
are, and `key[0] >> 6` shifts the value of a plain `char`. -/
def fill_adv_template_from_key (key : List Nat) (st : State) : State :=
  let adv := memcpy st.offline_finding_adv 7 key 6 22
  let adv := adv.set 29 (u8 (char_val (key.getD 0 0) >>> 6))
  { st with offline_finding_adv := adv }

/-! ## Status encoder -/

/-- The function `_set_status`. -/
def _set_status (status : Nat) (st : State) : State :=
  { st with offline_finding_adv := st.offline_finding_adv.set 6 (u8 status) }

/-- The function `set_battery`. -/
def set_battery (battery_level : Nat) (st : State) : State :=
  let status_flag := u8 (st.status_flag &&& bnot STATUS_FLAG_BATTERY_MASK)
  let status_flag :=
    if battery_level > 80 then status_flag
    else if battery_level > 50 then u8 (status_flag ||| STATUS_FLAG_MEDIUM_BATTERY)
    else if battery_level > 30 then u8 (status_flag ||| STATUS_FLAG_LOW_BATTERY)
    else u8 (status_flag ||| STATUS_FLAG_CRITICALLY_LOW_BATTERY)
  _set_status status_flag { st with status_flag := status_flag }

/-- The function `set_status`. -/
def set_status (status : Nat) (st : State) : State :=
  let status_flag := u8 (st.status_flag &&& bnot STATUS_FLAG_COUNTER_MASK)
  let status_flag := u8 (status_flag ||| status)
  _set_status status_flag { st with status_flag := status_flag }

/-- The function `set_raw_status`. -/
def set_raw_status (raw_status : Nat) (st : State) : State :=
  let status_flag := u8 raw_status
  _set_status status_flag { st with status_flag := status_flag }

/-! ## Calls into the SoftDevice and fatal errors -/

/-- How a run of a firmware function ends: it returns `val` in state `st`, or
`APP_ERROR_CHECK` met the code `err_code` and the device halts in state `st`. -/
inductive Outcome (α : Type)
  | done (val : α) (st : State)
  | fault (err_code : Nat) (st : State)

/-- The state in which a run ended. -/
def Outcome.state {α : Type} : Outcome α → State
  | Outcome.done _ st => st
  | Outcome.fault _ st => st

/-- Whether the run returned to its caller. -/
def Outcome.completed {α : Type} : Outcome α → Bool
  | Outcome.done _ _ => true
  | Outcome.fault _ _ => false

/-- The returned value, when the run returned. -/
def Outcome.value {α : Type} : Outcome α → Option α
  | Outcome.done v _ => some v
  | Outcome.fault _ _ => none

/-- Sequencing: the rest of the function body runs only if the first step
returned. -/
def Outcome.andThen {α β : Type} (o : Outcome α) (k : α → State → Outcome β) : Outcome β :=
  match o with
  | Outcome.done v st => k v st
  | Outcome.fault e st => Outcome.fault e st

/-- The macro `APP_ERROR_CHECK(err_code)` followed by the rest `k` of the
function body: a code other than `NRF_SUCCESS` is fatal. -/
def APP_ERROR_CHECK {α : Type} (err_code : Nat) (st : State) (k : State → Outcome α) :
    Outcome α :=
  if err_code ≠ NRF_SUCCESS then Outcome.fault err_code st else k st

/-- The reply of the SoftDevice to call `c` made in state `st`. -/
def sd_ask (dev : SoftDevice) (c : sd_call) (st : State) : sd_reply :=
  dev st.sd_calls c

/-- Record that call `c` was made. -/
def sd_log (c : sd_call) (st : State) : State :=
  { st with sd_calls := st.sd_calls ++ [c] }

/-- The `sd_ble_gap_tx_power_set` call of `ble_set_max_tx_power`, in the
signature selected by `NRF_SDK_VERSION`. -/
def tx_power_call (sdk : Nat) (st : State) (tx_power : Int) : sd_call :=
  if sdk ≥ 15 then sd_call.sd_ble_gap_tx_power_set (some st.adv_handle) tx_power
  else sd_call.sd_ble_gap_tx_power_set none tx_power

/-- The `for` loop of `ble_set_max_tx_power` over the remaining candidates;
returns the last value of `err_code` and the state. -/
def tx_power_loop (sdk : Nat) (dev : SoftDevice) : List Int → Nat → State → Nat × State
  | [], err_code, st => (err_code, st)
  | tx_power :: rest, _, st =>
    let c := tx_power_call sdk st tx_power
    let err_code := (sd_ask dev c st).err_code
    let st := sd_log c st
    if err_code = NRF_SUCCESS then (err_code, { st with max_tx_power := tx_power })
    else tx_power_loop sdk dev rest err_code st

/-- The function `ble_set_max_tx_power`; `sdk` is `NRF_SDK_VERSION`. The local
`err_code` has no initial value in the source; the loop body runs at least once
and overwrites the `0` passed here. -/
def ble_set_max_tx_power (sdk : Nat) (dev : SoftDevice) (st : State) : Outcome Unit :=
  if st.max_tx_power = -1 then
    let r := tx_power_loop sdk dev [8, 7, 6, 5, 4] 0 st
    let err_code := r.1
    let st := r.2
    if st.max_tx_power = -1 then APP_ERROR_CHECK err_code st (Outcome.done ())
    else Outcome.done () st
  else
    let c := tx_power_call sdk st st.max_tx_power
    let err_code := (sd_ask dev c st).err_code
    let st := sd_log c st
    APP_ERROR_CHECK err_code st (Outcome.done ())

/-- The function `ble_set_mac_address`. -/
def ble_set_mac_address (sdk : Nat) (dev : SoftDevice) (addr : List Nat) (st : State) :
    Outcome Unit :=
  let gap_addr := addr.take 6
  let c := if sdk ≥ 15 then sd_call.sd_ble_gap_addr_set gap_addr
           else sd_call.sd_ble_gap_address_set gap_addr
  let err_code := (sd_ask dev c st).err_code
  let st := sd_log c st
  APP_ERROR_CHECK err_code st fun st =>
  APP_ERROR_CHECK err_code st (Outcome.done ())

/-- The function `ble_advertising_init`. -/
def ble_advertising_init (sdk : Nat) (dev : SoftDevice) (st : State) : Outcome Unit :=
  let st := { st with adv_params := adv_params_zero }
  if sdk ≥ 15 then
    let st := { st with adv_params :=
      { type := adv_type_t.BLE_GAP_ADV_TYPE_NONCONNECTABLE_NONSCANNABLE_UNDIRECTED,
        interval := MSEC_TO_UNITS_0_625 ADVERTISING_INTERVAL,
        duration := 0 } }
    let c := sd_call.sd_ble_gap_adv_set_configure st.adv_handle none st.adv_params
    let r := sd_ask dev c st
    let st := { sd_log c st with adv_handle := u8 r.adv_handle }
    APP_ERROR_CHECK r.err_code st (Outcome.done ())
  else
    let st := { st with adv_params :=
      { type := adv_type_t.BLE_GAP_ADV_TYPE_ADV_NONCONN_IND,
        interval := MSEC_TO_UNITS_0_625 ADVERTISING_INTERVAL,
        duration := 0 } }
    let c := sd_call.sd_ble_gap_adv_start_params st.adv_params
    Outcome.done () (sd_log c st)

/-- The block, present when `NRF_SDK_VERSION >= 15`, that stops a configured
advertising set: `NRF_ERROR_INVALID_STATE` is tolerated, any other error is
fatal. -/
def adv_stop_if_configured (dev : SoftDevice) (st : State) : Outcome Unit :=
  if st.adv_handle ≠ BLE_GAP_ADV_SET_HANDLE_NOT_SET then
    let c := sd_call.sd_ble_gap_adv_stop (some st.adv_handle)
    let err_code := (sd_ask dev c st).err_code
    let st := sd_log c st
    if err_code ≠ NRF_ERROR_INVALID_STATE then APP_ERROR_CHECK err_code st (Outcome.done ())
    else Outcome.done () st
  else Outcome.done () st

/-- The block of `ble_set_advertisement_key` that hands the payload buffer and
its length to the SoftDevice: configure and start (SDK 15 and later), or
`sd_ble_gap_adv_data_set` (earlier SDKs). The length is converted to the
`uint16_t` field `adv_data.len`, respectively the `uint8_t` parameter `dlen`. -/
def adv_data_submit (sdk : Nat) (dev : SoftDevice) (st : State) : Outcome Unit :=
  if sdk ≥ 15 then
    let c := sd_call.sd_ble_gap_adv_set_configure st.adv_handle
      (some (st.offline_finding_adv, st.offline_finding_adv_len % 65536)) st.adv_params
    let r := sd_ask dev c st
    let st := { sd_log c st with adv_handle := u8 r.adv_handle }
    APP_ERROR_CHECK r.err_code st fun st =>
    let c := sd_call.sd_ble_gap_adv_start_handle st.adv_handle APP_BLE_CONN_CFG_TAG
    let err_code := (sd_ask dev c st).err_code
    let st := sd_log c st
    APP_ERROR_CHECK err_code st (Outcome.done ())
  else
    let c := sd_call.sd_ble_gap_adv_data_set st.offline_finding_adv
      (u8 st.offline_finding_adv_len)
    let err_code := (sd_ask dev c st).err_code
    let st := sd_log c st
    APP_ERROR_CHECK err_code st (Outcome.done ())

/-- The function `ble_set_advertisement_key`; the value returned is the
`uint8_t` conversion of `offline_finding_adv_len`. -/
def ble_set_advertisement_key (sdk : Nat) (dev : SoftDevice) (key : List Nat) (st : State) :
    Outcome Nat :=
  (if sdk ≥ 15 then adv_stop_if_configured dev st else Outcome.done () st).andThen fun _ st =>
  let st := set_addr_from_key key st
  let st := fill_adv_template_from_key key st
  (ble_set_mac_address sdk dev st.bt_addr st).andThen fun _ st =>
  (adv_data_submit sdk dev st).andThen fun _ st =>
  (ble_set_max_tx_power sdk dev st).andThen fun _ st =>
  Outcome.done (u8 st.offline_finding_adv_len) st

/-! ## Provisioning service (`config_service.c`) -/

/-- The function `on_write`: its own statements only read the service; the
result is the list of callback invocations made (none or one), each recorded
with the service as it is when the callback is entered. The callback is handed
a writable `p_service`; what its body does is not part of this function. -/
def on_write (p_service : config_service_t) (p_ble_evt : ble_evt_t) : List key_write_call :=
  if p_ble_evt.write_handle = p_service.key_write_handles.value_handle then
    if p_ble_evt.write_len = CONFIG_SERVICE_KEY_LENGTH then
      match p_service.key_write_handler with
      | some handler =>
        [{ handler := handler, service := p_service,
           key_data := p_ble_evt.write_data, length := p_ble_evt.write_len }]
      | none => []
    else []
  else []

/-- The function `config_service_on_ble_evt`; `none` is a `NULL` pointer. The
result is the service object as the statements of this function leave it, and
the callback invocations made during it. When a callback is invoked, the first
component is the service as the callback finds it: whatever the callback body
then does through its writable `p_service` lies outside the repository's core
and is not described here. -/
def config_service_on_ble_evt (p_service : Option config_service_t)
    (p_ble_evt : Option ble_evt_t) : Option config_service_t × List key_write_call :=
  match p_service, p_ble_evt with
  | none, _ => (none, [])
  | some svc, none => (some svc, [])
  | some svc, some evt =>
    match evt.evt_id with
    | evt_id_t.BLE_GAP_EVT_CONNECTED =>
      (some { svc with conn_handle := evt.conn_handle }, [])
    | evt_id_t.BLE_GAP_EVT_DISCONNECTED =>
      (some { svc with conn_handle := BLE_CONN_HANDLE_INVALID }, [])
    | evt_id_t.BLE_GATTS_EVT_WRITE => (some svc, on_write svc evt)
    | _ => (some svc, [])

/-! ## Mode controller -/

/-- The function `on_ble_evt` of `ble_stack.c`. -/
def on_ble_evt (p_ble_evt : ble_evt_t) (st : State) : State :=
  match p_ble_evt.evt_id with
  | evt_id_t.BLE_GAP_EVT_CONNECTED => { st with m_conn_handle := p_ble_evt.conn_handle }
  | evt_id_t.BLE_GAP_EVT_DISCONNECTED => { st with m_conn_handle := BLE_CONN_HANDLE_INVALID }
  | evt_id_t.BLE_GAP_EVT_SEC_PARAMS_REQUEST =>
    sd_log (sd_call.sd_ble_gap_sec_params_reply p_ble_evt.conn_handle
      BLE_GAP_SEC_STATUS_PAIRING_NOT_SUPP) st
  | evt_id_t.BLE_GATTS_EVT_SYS_ATTR_MISSING =>
    sd_log (sd_call.sd_ble_gatts_sys_attr_set p_ble_evt.conn_handle) st
  | evt_id_t.BLE_GAP_EVT_ADV_REPORT => st
  | _ => st

/-- The function `ble_evt_dispatch`. -/
def ble_evt_dispatch (p_ble_evt : ble_evt_t) (st : State) : State :=
  let st := on_ble_evt p_ble_evt st
  if st.m_current_mode = ble_operating_mode_t.BLE_MODE_CONFIG then
    let r := config_service_on_ble_evt (some st.m_config_service) (some p_ble_evt)
    { st with m_config_service := r.1.getD st.m_config_service,
              key_write_calls := st.key_write_calls ++ r.2 }
  else st

/-- The function `ble_stop_advertising`. -/
def ble_stop_advertising (sdk : Nat) (dev : SoftDevice) (st : State) : Outcome Unit :=
  if sdk ≥ 15 then adv_stop_if_configured dev st
  else
    let c := sd_call.sd_ble_gap_adv_stop none
    let err_code := (sd_ask dev c st).err_code
    let st := sd_log c st
    if err_code ≠ NRF_ERROR_INVALID_STATE then APP_ERROR_CHECK err_code st (Outcome.done ())
    else Outcome.done () st

/-- The function `ble_switch_to_offline_mode`. -/
def ble_switch_to_offline_mode (sdk : Nat) (dev : SoftDevice) (st : State) : Outcome Unit :=
  (if st.m_conn_handle ≠ BLE_CONN_HANDLE_INVALID then
    let c := sd_call.sd_ble_gap_disconnect st.m_conn_handle
      BLE_HCI_REMOTE_USER_TERMINATED_CONNECTION
    let err_code := (sd_ask dev c st).err_code
    let st := sd_log c st
    (if err_code ≠ NRF_ERROR_INVALID_STATE then APP_ERROR_CHECK err_code st (Outcome.done ())
     else Outcome.done () st).andThen fun _ st =>
    Outcome.done () { st with m_conn_handle := BLE_CONN_HANDLE_INVALID }
  else Outcome.done () st).andThen fun _ st =>
  (ble_stop_advertising sdk dev st).andThen fun _ st =>
  let st := { st with m_current_mode := ble_operating_mode_t.BLE_MODE_OFFLINE }
  ble_advertising_init sdk dev st

/-- A SoftDevice that accepts every call and leaves the advertising handle it
is given at `0`. -/
def sd_accept_all : SoftDevice := fun _ _ => { err_code := NRF_SUCCESS, adv_handle := 0 }

/-- The states `s` and `t` agree on every global except possibly the ones a
SoftDevice call may touch: the call log, `adv_handle` and the cached
`max_tx_power`. -/
def radio_only (s t : State) : Prop :=
  t = { s with sd_calls := t.sd_calls, adv_handle := t.adv_handle,
               max_tx_power := t.max_tx_power }

/-- The identity derivation of `ble_set_advertisement_key`: the address step
followed by the payload step. -/
def derive_identity (key : List Nat) (st : State) : State :=
  fill_adv_template_from_key key (set_addr_from_key key st)

/-- A 28-byte key used as a sample input. -/
def sample_key : List Nat :=
  [0x9A, 1, 2, 3, 4, 5, 6, 7, 8, 9, 10, 11, 12, 13, 14, 15, 16, 17, 18, 19, 20, 21, 22, 23,
   24, 25, 26, 255]

/-- The battery bits `set_battery` ORs into the status byte for a level,
following its `if` ladder (closed form used in the proofs). -/
def battery_bits (battery_level : Nat) : Nat :=
  if battery_level > 80 then 0
  else if battery_level > 50 then STATUS_FLAG_MEDIUM_BATTERY
  else if battery_level > 30 then STATUS_FLAG_LOW_BATTERY
  else STATUS_FLAG_CRITICALLY_LOW_BATTERY

/-- A GATTS write event of 28 bytes (the sample key) aimed at attribute handle
`h`. -/
def sample_write_evt (h : Nat) : ble_evt_t :=
  { evt_id := evt_id_t.BLE_GATTS_EVT_WRITE, conn_handle := 0, write_handle := h,
    write_len := 28, write_data := sample_key }

/-- A service whose Key-Write value handle is 17 and whose registered callback
is number 1. -/
def sample_service : config_service_t :=
  { config_service_zero with
    key_write_handles := ⟨17, 0, 0, 0⟩, key_write_handler := some 1 }

/-- The initial state with the sample service installed. -/
def config_sample_state : State :=
  { initial_state with m_config_service := sample_service }

/-- The state `config_sample_state` switched to `BLE_MODE_OFFLINE`. -/
def offline_sample_state : State :=
  { config_sample_state with m_current_mode := ble_operating_mode_t.BLE_MODE_OFFLINE }

/-- Whether a SoftDevice call stops, configures or starts advertising. -/
def is_adv_call : sd_call → Bool
  | sd_call.sd_ble_gap_adv_stop _ => true
  | sd_call.sd_ble_gap_adv_set_configure _ _ _ => true
  | sd_call.sd_ble_gap_adv_start_handle _ _ => true
  | sd_call.sd_ble_gap_adv_start_params _ => true
  | _ => false

/-- A state with an active provisioning connection (handle 3) and a configured
advertising set (handle 0). -/
def connected_sample_state : State :=
  { config_sample_state with m_conn_handle := 3, adv_handle := 0 }

/-- The call log of `t` extends that of `s`, and every added call satisfies
`P`. -/
def log_ext (P : sd_call → Bool) (s t : State) : Prop :=
  ∃ new, t.sd_calls = s.sd_calls ++ new ∧ ∀ c ∈ new, P c = true

/-- Postcondition of a run: if it returns, the state it returns in satisfies
`Q`. -/
def post {α : Type} (Q : State → Prop) (o : Outcome α) : Prop :=
  o.completed = true → Q o.state

/-- For a SoftDevice call that carries the advertisement payload: the number of
bytes in the buffer handed over and the length argument passed with it. -/
def payload_len_of : sd_call → Option (Nat × Nat)
  | sd_call.sd_ble_gap_adv_set_configure _ (some (d, len)) _ => some (d.length, len)
  | sd_call.sd_ble_gap_adv_data_set d len => some (d.length, len)
  | _ => none

/-- The call either carries no payload, or carries `n` bytes with length
argument `n`. -/
def payload_call_ok (n : Nat) (c : sd_call) : Bool :=
  match payload_len_of c with
  | none => true
  | some (a, b) => a == n && b == n

/-- The initial state after `set_raw_status(0xC5)`. -/
def status_sample_state : State := set_raw_status 0xC5 initial_state

/-- The state in which `ble_set_advertisement_key(sample_key)` ends when started
in `status_sample_state`, built for SDK 15, every call accepted. -/
def keyed_sample_state : State :=
  (ble_set_advertisement_key 15 sd_accept_all sample_key status_sample_state).state

/-- The key read back from an address and a payload, in the words of the
claim: `K[0] = (payload[29] << 6) | (bt_addr[5] & 0x3F)`, `K[i] = bt_addr[5 - i]`
for `i = 1..5`, and `K[6..27] = payload[7..28]`. -/
def recover_key (bt_addr payload : List Nat) : List Nat :=
  [ (payload.getD 29 0 <<< 6) ||| (bt_addr.getD 5 0 &&& 0x3F),
    bt_addr.getD 4 0, bt_addr.getD 3 0, bt_addr.getD 2 0, bt_addr.getD 1 0,
    bt_addr.getD 0 0 ] ++ (payload.drop 7).take 22

/-- A second 28-byte key, equal to `sample_key` except in its first byte
(`0x5A` for `0x9A`: same low six bits, other top bits). -/
def sample_key2 : List Nat :=
  [0x5A, 1, 2, 3, 4, 5, 6, 7, 8, 9, 10, 11, 12, 13, 14, 15, 16, 17, 18, 19, 20, 21, 22, 23,
   24, 25, 26, 255]

/-- Whether the SoftDevice accepts the request for candidate number `i` of
`powers`, asked from state `st` after the requests for all earlier candidates
of the list. -/
def tx_accepts (sdk : Nat) (dev : SoftDevice) (st : State) (powers : List Int) (i : Nat) :
    Bool :=
  decide ((dev (st.sd_calls ++ (powers.take i).map (tx_power_call sdk st))
    (tx_power_call sdk st (powers.getD i 0))).err_code = NRF_SUCCESS)

/-- A SoftDevice that rejects (with `NRF_ERROR_INVALID_PARAM`, 7) every
transmit-power request above `limit` and accepts every other call. -/
def sd_tx_limit (limit : Int) : SoftDevice := fun _ c =>
  match c with
  | sd_call.sd_ble_gap_tx_power_set _ p =>
    if p ≤ limit then { err_code := NRF_SUCCESS, adv_handle := 0 }
    else { err_code := 7, adv_handle := 0 }
  | _ => { err_code := NRF_SUCCESS, adv_handle := 0 }

/-- The array `powers` of `ble_set_max_tx_power`. -/
def tx_power_candidates : List Int := [8, 7, 6, 5, 4]

/-- Whether a SoftDevice call is a start-advertising request. -/
def is_adv_start : sd_call → Bool
  | sd_call.sd_ble_gap_adv_start_handle _ _ => true
  | sd_call.sd_ble_gap_adv_start_params _ => true
  | _ => false

/-- The non-connectable parameters `ble_advertising_init` stores in
`adv_params`. -/
def offline_adv_params (sdk : Nat) : ble_gap_adv_params_t :=
  { type := if sdk ≥ 15 then
        adv_type_t.BLE_GAP_ADV_TYPE_NONCONNECTABLE_NONSCANNABLE_UNDIRECTED
      else adv_type_t.BLE_GAP_ADV_TYPE_ADV_NONCONN_IND,
    interval := MSEC_TO_UNITS_0_625 ADVERTISING_INTERVAL,
    duration := 0 }

/-- The stop request `ble_stop_advertising` makes from state `st`: on SDK 15 and
later only when an advertising set has been configured. -/
def stop_requests (sdk : Nat) (st : State) : List sd_call :=
  if sdk ≥ 15 then
    (if st.adv_handle ≠ BLE_GAP_ADV_SET_HANDLE_NOT_SET then
      [sd_call.sd_ble_gap_adv_stop (some st.adv_handle)] else [])
  else [sd_call.sd_ble_gap_adv_stop none]

/-- The request `ble_advertising_init` makes from state `st`: a configure
request without data on SDK 15 and later, a start request carrying the
parameters on earlier SDKs. -/
def init_request (sdk : Nat) (st : State) : sd_call :=
  if sdk ≥ 15 then
    sd_call.sd_ble_gap_adv_set_configure st.adv_handle none (offline_adv_params sdk)
  else sd_call.sd_ble_gap_adv_start_params (offline_adv_params sdk)

/-- The requests the code of `ble_switch_to_offline_mode` makes from state `st`
when none of them is fatal, in order: the disconnect (only with a connection
handle set), those of `ble_stop_advertising`, that of `ble_advertising_init`. -/
def offline_switch_requests (sdk : Nat) (st : State) : List sd_call :=
  (if st.m_conn_handle ≠ BLE_CONN_HANDLE_INVALID then
    [sd_call.sd_ble_gap_disconnect st.m_conn_handle BLE_HCI_REMOTE_USER_TERMINATED_CONNECTION]
   else []) ++ (stop_requests sdk st ++ [init_request sdk st])

/-- The run `o`, started in `s`, made the calls of `expected` in order: all of
them if it returned, an initial part of them if it ended in a fatal error. -/
def issues {α : Type} (s : State) (o : Outcome α) (expected : List sd_call) : Prop :=
  ∃ new tail, o.state.sd_calls = s.sd_calls ++ new ∧ expected = new ++ tail ∧
    (o.completed = true → tail = [])

/-- The first block of `ble_switch_to_offline_mode`: disconnect an active
connection (`NRF_ERROR_INVALID_STATE` is tolerated, any other error is fatal)
and clear the handle. -/
def disconnect_if_connected (dev : SoftDevice) (st : State) : Outcome Unit :=
  if st.m_conn_handle ≠ BLE_CONN_HANDLE_INVALID then
    let c := sd_call.sd_ble_gap_disconnect st.m_conn_handle
      BLE_HCI_REMOTE_USER_TERMINATED_CONNECTION
    let err_code := (sd_ask dev c st).err_code
    let st := sd_log c st
    (if err_code ≠ NRF_ERROR_INVALID_STATE then APP_ERROR_CHECK err_code st (Outcome.done ())
     else Outcome.done () st).andThen fun _ st =>
    Outcome.done () { st with m_conn_handle := BLE_CONN_HANDLE_INVALID }
  else Outcome.done () st

/-- The macro `CONFIG_ADV_INTERVAL`, `MSEC_TO_UNITS(100, UNIT_0_625_MS)`. -/
def CONFIG_ADV_INTERVAL : Nat := MSEC_TO_UNITS_0_625 100

/-- The static array `adv_data` of `ble_start_config_advertising`: the flags
and the complete local name `HeyStack-Config`. -/
def config_adv_data : List Nat :=
  [0x02, 0x01, 0x06,
   0x10, 0x09,
   72, 101, 121, 83, 116, 97, 99, 107, 45, 67, 111, 110, 102, 105, 103]

/-- The function `ble_start_config_advertising`. The connectable parameters
live in the local `config_adv_params`; the global `adv_params` is not
assigned. -/
def ble_start_config_advertising (sdk : Nat) (dev : SoftDevice) (st : State) : Outcome Unit :=
  let st := { st with m_current_mode := ble_operating_mode_t.BLE_MODE_CONFIG }
  if sdk ≥ 15 then
    (adv_stop_if_configured dev st).andThen fun _ st =>
    let config_adv_params : ble_gap_adv_params_t :=
      { type := adv_type_t.BLE_GAP_ADV_TYPE_CONNECTABLE_SCANNABLE_UNDIRECTED,
        interval := CONFIG_ADV_INTERVAL,
        duration := 0 }
    let c := sd_call.sd_ble_gap_adv_set_configure st.adv_handle
      (some (config_adv_data, config_adv_data.length)) config_adv_params
    let r := sd_ask dev c st
    let st := { sd_log c st with adv_handle := u8 r.adv_handle }
    APP_ERROR_CHECK r.err_code st fun st =>
    let c := sd_call.sd_ble_gap_adv_start_handle st.adv_handle APP_BLE_CONN_CFG_TAG
    let err_code := (sd_ask dev c st).err_code
    let st := sd_log c st
    APP_ERROR_CHECK err_code st (Outcome.done ())
  else
    let c := sd_call.ble_advdata_set
    let err_code := (sd_ask dev c st).err_code
    let st := sd_log c st
    APP_ERROR_CHECK err_code st fun st =>
    let config_adv_params : ble_gap_adv_params_t :=
      { type := adv_type_t.BLE_GAP_ADV_TYPE_ADV_IND,
        interval := CONFIG_ADV_INTERVAL,
        duration := 0 }
    let c := sd_call.sd_ble_gap_adv_start_params config_adv_params
    let err_code := (sd_ask dev c st).err_code
    let st := sd_log c st
    APP_ERROR_CHECK err_code st (Outcome.done ())

/-- The advertising parameters a SoftDevice call submits, if it submits any. -/
def params_of : sd_call → Option ble_gap_adv_params_t
  | sd_call.sd_ble_gap_adv_set_configure _ _ p => some p
  | sd_call.sd_ble_gap_adv_start_params p => some p
  | _ => none

/-- The call submits no advertising parameters, or submits exactly `q`. -/
def params_call_ok (q : ble_gap_adv_params_t) (c : sd_call) : Bool :=
  match params_of c with
  | none => true
  | some p => decide (p = q)

/-- Whether an advertising type is one of the connectable types named in
`ble_start_config_advertising`. -/
def is_connectable : adv_type_t → Bool
  | adv_type_t.BLE_GAP_ADV_TYPE_CONNECTABLE_SCANNABLE_UNDIRECTED => true
  | adv_type_t.BLE_GAP_ADV_TYPE_ADV_IND => true
  | _ => false

/-- Boot into provisioning, SDK 15, every call accepted:
`ble_start_config_advertising` from the initial state. -/
def provisioning_sample_state : State :=
  (ble_start_config_advertising 15 sd_accept_all initial_state).state

/-- Boot into provisioning after `ble_advertising_init`, SDK 15, every call
accepted. -/
def provisioning_after_init_state : State :=
  (ble_start_config_advertising 15 sd_accept_all
    (ble_advertising_init 15 sd_accept_all initial_state).state).state

/-! ## Initialisation of the provisioning service (`config_service_init`) -/

/-- Conversion to `uint16_t`. -/
def u16 (n : Nat) : Nat := n % 65536

/-- The macro `CONFIG_SERVICE_UUID_BASE`. -/
def CONFIG_SERVICE_UUID_BASE : List Nat :=
  [0xFB, 0x34, 0x9B, 0x5F, 0x80, 0x00, 0x00, 0x80,
   0x00, 0x10, 0x00, 0x00, 0x00, 0x00, 0x00, 0x00]

def CONFIG_SERVICE_UUID_SERVICE : Nat := 0xFF00
def CONFIG_SERVICE_UUID_KEY_WRITE : Nat := 0xFF01
def CONFIG_SERVICE_UUID_KEY_COUNT : Nat := 0xFF02
/-- The constant `BLE_GATTS_SRVC_TYPE_PRIMARY` of `ble_gatts.h`. -/
def BLE_GATTS_SRVC_TYPE_PRIMARY : Nat := 1

/-- The struct `config_service_init_t`; `none` is a `NULL` handler. -/
structure config_service_init_t where
  key_write_handler : Option Nat
  initial_key_count : Nat
  deriving DecidableEq, Repr

/-- What `key_write_char_add` and `key_count_char_add` pass to
`sd_ble_gatts_characteristic_add`: the service handle, the properties set in
`char_md`, the UUID, whether the read and write permissions are open (the other
value used is "no access"), the lengths and the initial value (`none` is
`NULL`). -/
structure char_add_args where
  service_handle : Nat
  prop_read : Bool
  prop_write : Bool
  prop_write_wo_resp : Bool
  uuid_type : Nat
  uuid : Nat
  read_open : Bool
  write_open : Bool
  init_len : Nat
  max_len : Nat
  p_value : Option (List Nat)
  deriving DecidableEq, Repr

/-- A call of `config_service_init` into the SoftDevice. -/
inductive gatts_call
  | sd_ble_uuid_vs_add (base_uuid : List Nat)
  | sd_ble_gatts_service_add (srvc_type : Nat) (uuid_type : Nat) (uuid : Nat)
  | sd_ble_gatts_characteristic_add (args : char_add_args)
  deriving DecidableEq, Repr

/-- What the SoftDevice hands back to such a call: the error code and the values
it leaves behind the output pointers (`p_uuid_type`, `p_handle`,
`p_handles`). -/
structure gatts_reply where
  err_code : Nat
  uuid_type : Nat
  service_handle : Nat
  handles : ble_gatts_char_handles_t
  deriving DecidableEq, Repr

/-- The GATT side of the SoftDevice: any function from the calls made before and
the current call to a reply. -/
abbrev GattServer := List gatts_call → gatts_call → gatts_reply

/-- Result of a function of `config_service.c` that returns an error code: the
code, the service object behind `p_service` afterwards, and the calls made so
far. -/
structure init_result where
  ret : Nat
  service : Option config_service_t
  calls : List gatts_call
  deriving DecidableEq, Repr

/-- The call made by `key_write_char_add`. -/
def key_write_char_call (p_service : config_service_t) : gatts_call :=
  gatts_call.sd_ble_gatts_characteristic_add
    { service_handle := p_service.service_handle,
      prop_read := false, prop_write := true, prop_write_wo_resp := true,
      uuid_type := p_service.uuid_type, uuid := CONFIG_SERVICE_UUID_KEY_WRITE,
      read_open := true, write_open := true,
      init_len := CONFIG_SERVICE_KEY_LENGTH, max_len := CONFIG_SERVICE_KEY_LENGTH,
      p_value := none }

/-- The call made by `key_count_char_add`; the value is the two bytes of the
`uint16_t` parameter `initial_count`, low byte first. -/
def key_count_char_call (p_service : config_service_t) (initial_count : Nat) : gatts_call :=
  gatts_call.sd_ble_gatts_characteristic_add
    { service_handle := p_service.service_handle,
      prop_read := true, prop_write := false, prop_write_wo_resp := false,
      uuid_type := p_service.uuid_type, uuid := CONFIG_SERVICE_UUID_KEY_COUNT,
      read_open := true, write_open := false,
      init_len := 2, max_len := 2,
      p_value := some [u16 initial_count % 256, u16 initial_count / 256] }

/-- The function `key_write_char_add`: returns the error code, the service with
`key_write_handles` as the SoftDevice left them, and the extended log. -/
def key_write_char_add (dev : GattServer) (log : List gatts_call)
    (p_service : config_service_t) : Nat × config_service_t × List gatts_call :=
  let c := key_write_char_call p_service
  let r := dev log c
  (r.err_code, { p_service with key_write_handles := r.handles }, log ++ [c])

/-- The function `key_count_char_add`. -/
def key_count_char_add (dev : GattServer) (log : List gatts_call)
    (p_service : config_service_t) (initial_count : Nat) :
    Nat × config_service_t × List gatts_call :=
  let c := key_count_char_call p_service initial_count
  let r := dev log c
  (r.err_code, { p_service with key_count_handles := r.handles }, log ++ [c])

/-- The function `config_service_init`; `none` is a `NULL` pointer and `log`
holds the SoftDevice calls made before. -/
def config_service_init (dev : GattServer) (log : List gatts_call)
    (p_service : Option config_service_t) (p_init : Option config_service_init_t) :
    init_result :=
  match p_service, p_init with
  | none, _ => { ret := NRF_ERROR_NULL, service := none, calls := log }
  | some svc, none => { ret := NRF_ERROR_NULL, service := some svc, calls := log }
  | some svc, some init =>
    let svc := { svc with conn_handle := BLE_CONN_HANDLE_INVALID,
                          key_write_handler := init.key_write_handler,
                          key_count := init.initial_key_count }
    let c := gatts_call.sd_ble_uuid_vs_add CONFIG_SERVICE_UUID_BASE
    let r := dev log c
    let log := log ++ [c]
    let svc := { svc with uuid_type := u8 r.uuid_type }
    if r.err_code ≠ NRF_SUCCESS then { ret := r.err_code, service := some svc, calls := log }
    else
    let c := gatts_call.sd_ble_gatts_service_add BLE_GATTS_SRVC_TYPE_PRIMARY svc.uuid_type
      CONFIG_SERVICE_UUID_SERVICE
    let r := dev log c
    let log := log ++ [c]
    let svc := { svc with service_handle := u16 r.service_handle }
    if r.err_code ≠ NRF_SUCCESS then { ret := r.err_code, service := some svc, calls := log }
    else
    let r := key_write_char_add dev log svc
    if r.1 ≠ NRF_SUCCESS then { ret := r.1, service := some r.2.1, calls := r.2.2 }
    else
    let r := key_count_char_add dev r.2.2 r.2.1 init.initial_key_count
    if r.1 ≠ NRF_SUCCESS then { ret := r.1, service := some r.2.1, calls := r.2.2 }
    else { ret := NRF_SUCCESS, service := some r.2.1, calls := r.2.2 }

/-- Which of the four steps of `config_service_init` a call is: 1 registers the
UUID base, 2 adds the primary service `0xFF00`, 3 adds Key-Write (`0xFF01`),
4 adds Key-Count (`0xFF02`); 0 for anything else. -/
def gatts_step : gatts_call → Nat
  | gatts_call.sd_ble_uuid_vs_add base => if base = CONFIG_SERVICE_UUID_BASE then 1 else 0
  | gatts_call.sd_ble_gatts_service_add t _ uuid =>
    if t = BLE_GATTS_SRVC_TYPE_PRIMARY ∧ uuid = CONFIG_SERVICE_UUID_SERVICE then 2 else 0
  | gatts_call.sd_ble_gatts_characteristic_add args =>
    if args.uuid = CONFIG_SERVICE_UUID_KEY_WRITE then 3
    else if args.uuid = CONFIG_SERVICE_UUID_KEY_COUNT then 4 else 0

/-- A GATT server that accepts the first `n` calls made to it and answers every
later one with `NRF_ERROR_NO_MEM` (4). -/
def gatts_accept_first (n : Nat) : GattServer := fun log _ =>
  { err_code := if log.length < n then NRF_SUCCESS else 4,
    uuid_type := 2, service_handle := 12, handles := ⟨13 + 2 * log.length, 0, 0, 0⟩ }

/-- Initialisation parameters with callback 1 and an initial key count of 3. -/
def sample_init : config_service_init_t := { key_write_handler := some 1, initial_key_count := 3 }

/-- The service object as `config_service_init` has it when it adds the
characteristics: the three fields it assigns first, then `uuid_type` and
`service_handle` as the first two calls left them. -/
def init_service (dev : GattServer) (log : List gatts_call) (svc : config_service_t)
    (init : config_service_init_t) : config_service_t :=
  { svc with
    conn_handle := BLE_CONN_HANDLE_INVALID,
    key_write_handler := init.key_write_handler,
    key_count := init.initial_key_count,
    uuid_type := u8 (dev log (gatts_call.sd_ble_uuid_vs_add CONFIG_SERVICE_UUID_BASE)).uuid_type,
    service_handle :=
      u16 (dev (log ++ [gatts_call.sd_ble_uuid_vs_add CONFIG_SERVICE_UUID_BASE])
        (gatts_call.sd_ble_gatts_service_add BLE_GATTS_SRVC_TYPE_PRIMARY
          (u8 (dev log (gatts_call.sd_ble_uuid_vs_add CONFIG_SERVICE_UUID_BASE)).uuid_type)
          CONFIG_SERVICE_UUID_SERVICE)).service_handle }

/-- The four calls of `config_service_init`, in order, as it makes them when
every earlier one succeeds: register-UUID-base, add-service, add-Key-Write,
add-Key-Count. -/
def init_calls (dev : GattServer) (log : List gatts_call) (svc : config_service_t)
    (init : config_service_init_t) : List gatts_call :=
  [ gatts_call.sd_ble_uuid_vs_add CONFIG_SERVICE_UUID_BASE,
    gatts_call.sd_ble_gatts_service_add BLE_GATTS_SRVC_TYPE_PRIMARY
      (u8 (dev log (gatts_call.sd_ble_uuid_vs_add CONFIG_SERVICE_UUID_BASE)).uuid_type)
      CONFIG_SERVICE_UUID_SERVICE,
    key_write_char_call (init_service dev log svc init),
    key_count_char_call (init_service dev log svc init) init.initial_key_count ]

/-- The error code the SoftDevice returns for call number `i` of `init_calls`,
made after the calls before it. -/
def init_answer (dev : GattServer) (log : List gatts_call) (svc : config_service_t)
    (init : config_service_init_t) (i : Nat) : Nat :=
  (dev (log ++ (init_calls dev log svc init).take i)
    ((init_calls dev log svc init).getD i
      (gatts_call.sd_ble_uuid_vs_add CONFIG_SERVICE_UUID_BASE))).err_code

/-! ## Byte-level facts -/

set_option maxRecDepth 100000 in
theorem addr_top_byte : ∀ b < 256,
    u8 (b ||| 0b11000000) = b ||| 0xC0 ∧ (b ||| 0xC0) >>> 6 = 3 ∧
    (b ||| 0xC0) &&& 0x3F = b &&& 0x3F := by
  decide

set_option maxRecDepth 100000 in
theorem top_bits_byte : ∀ b < 256,
    u8 (b >>> 6) = b >>> 6 ∧ (b >>> 6) &&& 0b11 = (b >>> 6) &&& 0b11 ∧ (b >>> 6) >>> 2 = 0 ∧
    b >>> 6 < 4 ∧ (b >>> 6) &&& 0b11111100 = 0 := by
  decide

set_option maxRecDepth 100000 in
theorem battery_clear_byte : ∀ s < 256,
    u8 (s &&& bnot STATUS_FLAG_BATTERY_MASK) = s % 64 := by
  decide

set_option maxRecDepth 100000 in
theorem counter_clear_byte : ∀ s < 256,
    u8 (s &&& bnot STATUS_FLAG_COUNTER_MASK) = s / 64 * 64 := by
  decide

set_option maxRecDepth 100000 in
theorem battery_or_byte : ∀ m < 64,
    u8 (m ||| STATUS_FLAG_MEDIUM_BATTERY) = m + 64 ∧
    u8 (m ||| STATUS_FLAG_LOW_BATTERY) = m + 128 ∧
    u8 (m ||| STATUS_FLAG_CRITICALLY_LOW_BATTERY) = m + 192 := by
  decide

set_option maxRecDepth 100000 in
theorem counter_or_byte : ∀ h < 4, ∀ b < 64, u8 (h * 64 ||| b) = h * 64 + b := by
  decide

set_option maxRecDepth 100000 in
theorem status_fields_byte : ∀ h < 4, ∀ m < 64,
    (h * 64 + m) >>> 6 = h ∧ (h * 64 + m) &&& STATUS_FLAG_COUNTER_MASK = m ∧
    (h * 64 + m) &&& STATUS_FLAG_BATTERY_MASK = h * 64 := by
  decide

/-- Under a signed plain `char` the shift `key[0] >> 6` of the byte `0x80` would
be `-2`, stored as `0xFE`; with the unsigned `char` of the target it is `2`. -/
theorem signed_char_shift_remark :
    (signed_char_val 0x80 >>> 6) % 256 = 0xFE ∧ u8 (char_val 0x80 >>> 6) = 2 := by
  decide

/-! ## Array facts -/

theorem getD_set_same (l : List Nat) (i v : Nat) (h : i < l.length) :
    (l.set i v).getD i 0 = v := by
  simp [List.getD_eq_getElem?_getD, List.getElem?_set, h]

theorem getD_set_other (l : List Nat) (i j v : Nat) (h : i ≠ j) :
    (l.set i v).getD j 0 = l.getD j 0 := by
  simp [List.getD_eq_getElem?_getD, List.getElem?_set, h]

theorem memcpy_length (n : Nat) : ∀ (dst : List Nat) (d : Nat) (src : List Nat) (s : Nat),
    (memcpy dst d src s n).length = dst.length := by
  induction n with
  | zero => intro dst d src s; rfl
  | succ n ih => intro dst d src s; simp [memcpy, ih]

theorem memcpy_getD_outside (n : Nat) : ∀ (dst : List Nat) (d : Nat) (src : List Nat) (s j : Nat),
    (j < d ∨ d + n ≤ j) → (memcpy dst d src s n).getD j 0 = dst.getD j 0 := by
  induction n with
  | zero => intro dst d src s j _; rfl
  | succ n ih =>
    intro dst d src s j hj
    simp only [memcpy]
    rw [ih _ _ _ _ _ (by omega), getD_set_other _ _ _ _ (by omega)]

theorem memcpy_getD_inside (n : Nat) : ∀ (dst : List Nat) (d : Nat) (src : List Nat) (s i : Nat),
    i < n → d + i < dst.length →
    (memcpy dst d src s n).getD (d + i) 0 = src.getD (s + i) 0 := by
  induction n with
  | zero => intro dst d src s i hi; omega
  | succ n ih =>
    intro dst d src s i hi hd
    simp only [memcpy]
    cases i with
    | zero =>
      simp only [Nat.add_zero] at hd ⊢
      rw [memcpy_getD_outside n (dst.set d (src.getD s 0)) (d + 1) src (s + 1) d (by omega),
        getD_set_same _ _ _ hd]
    | succ i =>
      have h1 := ih (dst.set d (src.getD s 0)) (d + 1) src (s + 1) i (by omega)
        (by simp; omega)
      have e1 : d + (i + 1) = d + 1 + i := by omega
      have e2 : s + (i + 1) = s + 1 + i := by omega
      rw [e1, e2]
      exact h1

/-! ## SoftDevice calls leave the derived identity and the status byte alone -/

theorem radio_only_refl (s : State) : radio_only s s := by
  cases s; rfl

theorem radio_only_trans {a b c : State} (h1 : radio_only a b) (h2 : radio_only b c) :
    radio_only a c := by
  unfold radio_only at *
  rw [h2, h1]

theorem radio_only_sd_log (c : sd_call) (s : State) : radio_only s (sd_log c s) := by
  cases s; rfl

theorem radio_only_set_handle (h : Nat) (s : State) :
    radio_only s { s with adv_handle := h } := by
  cases s; rfl

theorem radio_only_set_tx (p : Int) (s : State) :
    radio_only s { s with max_tx_power := p } := by
  cases s; rfl

theorem radio_only_derive {s t : State} (key : List Nat) (h : radio_only s t) :
    radio_only (derive_identity key s) (derive_identity key t) := by
  have h2 : ∃ c hd p, t = { s with sd_calls := c, adv_handle := hd, max_tx_power := p } :=
    ⟨_, _, _, h⟩
  obtain ⟨c, hd, p, rfl⟩ := h2
  cases s
  simp [radio_only, derive_identity, fill_adv_template_from_key, set_addr_from_key]

theorem radio_only_check {α : Type} (s t : State) (e : Nat) (k : State → Outcome α)
    (h : radio_only s t) (hk : radio_only s (k t).state) :
    radio_only s (APP_ERROR_CHECK e t k).state := by
  unfold APP_ERROR_CHECK
  split
  · exact h
  · exact hk

theorem radio_only_tx_power_loop (sdk : Nat) (dev : SoftDevice) (ps : List Int) :
    ∀ (e : Nat) (st : State), radio_only st (tx_power_loop sdk dev ps e st).2 := by
  induction ps with
  | nil => intro e st; exact radio_only_refl st
  | cons p ps ih =>
    intro e st
    simp only [tx_power_loop]
    split
    · exact radio_only_trans (radio_only_sd_log _ st) (radio_only_set_tx _ _)
    · exact radio_only_trans (radio_only_sd_log _ st) (ih _ _)

theorem radio_only_set_max_tx_power (sdk : Nat) (dev : SoftDevice) (st : State) :
    radio_only st (ble_set_max_tx_power sdk dev st).state := by
  unfold ble_set_max_tx_power
  split
  · have h := radio_only_tx_power_loop sdk dev [8, 7, 6, 5, 4] 0 st
    simp only []
    split
    · exact radio_only_check _ _ _ _ h h
    · exact h
  · exact radio_only_check _ _ _ _ (radio_only_sd_log _ st) (radio_only_sd_log _ st)

theorem radio_only_set_mac_address (sdk : Nat) (dev : SoftDevice) (addr : List Nat)
    (st : State) : radio_only st (ble_set_mac_address sdk dev addr st).state := by
  unfold ble_set_mac_address
  exact radio_only_check _ _ _ _ (radio_only_sd_log _ st)
    (radio_only_check _ _ _ _ (radio_only_sd_log _ st) (radio_only_sd_log _ st))

theorem radio_only_adv_stop (dev : SoftDevice) (st : State) :
    radio_only st (adv_stop_if_configured dev st).state := by
  unfold adv_stop_if_configured
  split
  · simp only []
    split
    · exact radio_only_check _ _ _ _ (radio_only_sd_log _ st) (radio_only_sd_log _ st)
    · exact radio_only_sd_log _ st
  · exact radio_only_refl st

theorem radio_only_fields {s t : State} (h : radio_only s t) :
    t.bt_addr = s.bt_addr ∧ t.offline_finding_adv = s.offline_finding_adv ∧
    t.status_flag = s.status_flag ∧ t.offline_finding_adv_len = s.offline_finding_adv_len ∧
    t.m_current_mode = s.m_current_mode ∧ t.m_conn_handle = s.m_conn_handle ∧
    t.m_config_service = s.m_config_service ∧ t.adv_params = s.adv_params ∧
    t.key_write_calls = s.key_write_calls := by
  unfold radio_only at h
  rw [h]
  simp

theorem radio_only_andThen {α β : Type} (b : State) (o : Outcome α)
    (k : α → State → Outcome β) (ho : radio_only b o.state)
    (hk : ∀ v s, radio_only b s → radio_only b (k v s).state) :
    radio_only b (o.andThen k).state := by
  cases o with
  | done v s => exact hk v s ho
  | fault e s => exact ho

theorem radio_only_check_of {α : Type} (b t : State) (e : Nat) (k : State → Outcome α)
    (h : radio_only b t) (hk : radio_only b t → radio_only b (k t).state) :
    radio_only b (APP_ERROR_CHECK e t k).state :=
  radio_only_check b t e k h (hk h)

theorem completed_andThen {α β : Type} (o : Outcome α) (k : α → State → Outcome β)
    (h : (o.andThen k).completed = true) :
    ∃ v s, o = Outcome.done v s ∧ (k v s).completed = true := by
  cases o with
  | done v s => exact ⟨v, s, rfl, h⟩
  | fault e s => simp [Outcome.andThen, Outcome.completed] at h

theorem radio_only_adv_data_submit (sdk : Nat) (dev : SoftDevice) (st : State) :
    radio_only st (adv_data_submit sdk dev st).state := by
  unfold adv_data_submit
  split
  · apply radio_only_check_of
    · exact radio_only_trans (radio_only_sd_log _ st) (radio_only_set_handle _ _)
    · intro h3
      exact radio_only_check_of _ _ _ _ (radio_only_trans h3 (radio_only_sd_log _ _))
        (fun h4 => h4)
  · exact radio_only_check_of _ _ _ _ (radio_only_sd_log _ _) (fun h4 => h4)

/-- A completed run of `ble_set_advertisement_key` ends in the derived identity
of the starting state, up to the globals a SoftDevice call may touch. -/
theorem set_advertisement_key_frame (sdk : Nat) (dev : SoftDevice) (key : List Nat)
    (st : State) (hc : (ble_set_advertisement_key sdk dev key st).completed = true) :
    radio_only (derive_identity key st) (ble_set_advertisement_key sdk dev key st).state := by
  unfold ble_set_advertisement_key at hc ⊢
  obtain ⟨v1, s1, h1, _⟩ := completed_andThen _ _ hc
  have hs1 : radio_only st s1 := by
    have : radio_only st
        (if sdk ≥ 15 then adv_stop_if_configured dev st else Outcome.done () st).state := by
      split
      · exact radio_only_adv_stop dev st
      · exact radio_only_refl st
    rw [h1] at this
    exact this
  rw [h1]
  simp only [Outcome.andThen]
  refine radio_only_trans (radio_only_derive key hs1) ?_
  apply radio_only_andThen
  · exact radio_only_set_mac_address _ _ _ _
  · intro _ s2 hs2
    apply radio_only_andThen
    · exact radio_only_trans hs2 (radio_only_adv_data_submit _ _ _)
    · intro _ s3 hs3
      apply radio_only_andThen
      · exact radio_only_trans hs3 (radio_only_set_max_tx_power _ _ _)
      · intro _ s4 hs4
        exact hs4

theorem value_andThen {α β : Type} (P : β → State → Prop) (o : Outcome α)
    (k : α → State → Outcome β)
    (hk : ∀ v s w, (k v s).value = some w → P w (k v s).state) (w : β)
    (h : (o.andThen k).value = some w) : P w (o.andThen k).state := by
  cases o with
  | done v s => exact hk v s w h
  | fault e s => simp [Outcome.andThen, Outcome.value] at h

theorem completed_of_value {α : Type} (o : Outcome α) (w : α) (h : o.value = some w) :
    o.completed = true := by
  cases o with
  | done v s => rfl
  | fault e s => simp [Outcome.value] at h

/-- The value a completed run of `ble_set_advertisement_key` returns. -/
theorem set_advertisement_key_value (sdk : Nat) (dev : SoftDevice) (key : List Nat)
    (st : State) (v : Nat)
    (hv : (ble_set_advertisement_key sdk dev key st).value = some v) :
    v = u8 st.offline_finding_adv_len := by
  have hc := completed_of_value _ _ hv
  have hf := (radio_only_fields (set_advertisement_key_frame sdk dev key st hc)).2.2.2.1
  have hlen : (derive_identity key st).offline_finding_adv_len = st.offline_finding_adv_len :=
    rfl
  rw [hlen] at hf
  rw [← hf]
  revert hv
  unfold ble_set_advertisement_key
  apply value_andThen (fun w s => w = u8 s.offline_finding_adv_len)
  intro _ s1 w1
  apply value_andThen (fun w s => w = u8 s.offline_finding_adv_len)
  intro _ s2 w2
  apply value_andThen (fun w s => w = u8 s.offline_finding_adv_len)
  intro _ s3 w3
  apply value_andThen (fun w s => w = u8 s.offline_finding_adv_len)
  intro _ s4 w4 h
  simp only [Outcome.value, Option.some.injEq] at h
  exact h.symm

theorem completed_andThen_of {α β : Type} (o : Outcome α) (k : α → State → Outcome β)
    (ho : o.completed = true) (hk : ∀ v s, (k v s).completed = true) :
    (o.andThen k).completed = true := by
  cases o with
  | done v s => exact hk v s
  | fault e s => simp [Outcome.completed] at ho

theorem adv_stop_accept_all (st : State) :
    (adv_stop_if_configured sd_accept_all st).completed = true := by
  unfold adv_stop_if_configured
  split
  · simp [sd_ask, sd_accept_all, APP_ERROR_CHECK, NRF_SUCCESS, NRF_ERROR_INVALID_STATE,
      Outcome.completed]
  · rfl

theorem set_mac_address_accept_all (sdk : Nat) (addr : List Nat) (st : State) :
    (ble_set_mac_address sdk sd_accept_all addr st).completed = true := by
  simp [ble_set_mac_address, sd_ask, sd_accept_all, APP_ERROR_CHECK, NRF_SUCCESS,
    Outcome.completed]

theorem set_max_tx_power_accept_all (sdk : Nat) (st : State) :
    (ble_set_max_tx_power sdk sd_accept_all st).completed = true := by
  unfold ble_set_max_tx_power
  split
  · simp [tx_power_loop, sd_ask, sd_accept_all, APP_ERROR_CHECK, NRF_SUCCESS,
      Outcome.completed]
  · simp [sd_ask, sd_accept_all, APP_ERROR_CHECK, NRF_SUCCESS, Outcome.completed]

theorem adv_data_submit_accept_all (sdk : Nat) (st : State) :
    (adv_data_submit sdk sd_accept_all st).completed = true := by
  unfold adv_data_submit
  split <;> simp [sd_ask, sd_accept_all, APP_ERROR_CHECK, NRF_SUCCESS, Outcome.completed]

/-- Against a SoftDevice that accepts every call, `ble_set_advertisement_key`
returns. -/
theorem set_advertisement_key_accept_all (sdk : Nat) (key : List Nat) (st : State) :
    (ble_set_advertisement_key sdk sd_accept_all key st).completed = true := by
  unfold ble_set_advertisement_key
  apply completed_andThen_of
  · split
    · exact adv_stop_accept_all st
    · rfl
  · intro _ s1
    apply completed_andThen_of
    · exact set_mac_address_accept_all _ _ _
    · intro _ s2
      apply completed_andThen_of
      · exact adv_data_submit_accept_all _ _
      · intro _ s3
        apply completed_andThen_of
        · exact set_max_tx_power_accept_all _ _
        · intro _ s4
          rfl

theorem run_bt_addr (sdk : Nat) (dev : SoftDevice) (key : List Nat) (st : State)
    (hc : (ble_set_advertisement_key sdk dev key st).completed = true) :
    (ble_set_advertisement_key sdk dev key st).state.bt_addr =
      (set_addr_from_key key st).bt_addr :=
  (radio_only_fields (set_advertisement_key_frame sdk dev key st hc)).1

theorem run_offline_finding_adv (sdk : Nat) (dev : SoftDevice) (key : List Nat) (st : State)
    (hc : (ble_set_advertisement_key sdk dev key st).completed = true) :
    (ble_set_advertisement_key sdk dev key st).state.offline_finding_adv =
      (fill_adv_template_from_key key st).offline_finding_adv :=
  (radio_only_fields (set_advertisement_key_frame sdk dev key st hc)).2.1

theorem key_byte_lt (key : List Nat) (hbyte : ∀ b ∈ key, b < 256) (i : Nat)
    (hi : i < key.length) : key.getD i 0 < 256 := by
  rw [List.getD_eq_getElem _ _ hi]
  exact hbyte _ (List.getElem_mem _)

/-! ## Identity encoder -/

/-- C1: for every 28-byte key `K`, the address `a` left by `set_addr_from_key K`,
and by every run of `ble_set_advertisement_key K` that returns, has 6 bytes with
`a[5] = K[0] | 0xC0` and `a[5 - i] = K[i]` for `i = 1..5`; so the top two bits
of `a[5]` are 1 and its low six bits are those of `K[0]`. Against a SoftDevice
that accepts every call the run does return. -/
theorem C1_address_from_key (key : List Nat) (st : State) (a : List Nat)
    (hlen : key.length = 28) (hbyte : ∀ b ∈ key, b < 256) (haddr : st.bt_addr.length = 6)
    (ha : a = (set_addr_from_key key st).bt_addr ∨
      ∃ sdk dev, (ble_set_advertisement_key sdk dev key st).completed = true ∧
        a = (ble_set_advertisement_key sdk dev key st).state.bt_addr) :
    (a.length = 6 ∧ a.getD 5 0 = key.getD 0 0 ||| 0xC0 ∧
      (∀ i, 1 ≤ i → i ≤ 5 → a.getD (5 - i) 0 = key.getD i 0) ∧
      a.getD 5 0 >>> 6 = 0b11 ∧ a.getD 5 0 &&& 0x3F = key.getD 0 0 &&& 0x3F) ∧
    ∀ sdk, (ble_set_advertisement_key sdk sd_accept_all key st).completed = true := by
  refine ⟨?_, fun sdk => set_advertisement_key_accept_all sdk key st⟩
  have ha2 : a = (set_addr_from_key key st).bt_addr := by
    rcases ha with h | ⟨sdk, dev, hc, h⟩
    · exact h
    · rw [h]; exact run_bt_addr sdk dev key st hc
  have h0 := addr_top_byte _ (key_byte_lt key hbyte 0 (by omega))
  have hk : ∀ i, i < 28 → u8 (key.getD i 0) = key.getD i 0 := fun i hi =>
    Nat.mod_eq_of_lt (key_byte_lt key hbyte i (by omega))
  have e5 : a.getD 5 0 = key.getD 0 0 ||| 0xC0 := by
    rw [ha2]
    simp only [set_addr_from_key]
    rw [getD_set_other _ _ _ _ (by decide), getD_set_other _ _ _ _ (by decide),
      getD_set_other _ _ _ _ (by decide), getD_set_other _ _ _ _ (by decide),
      getD_set_other _ _ _ _ (by decide), getD_set_same _ _ _ (by omega)]
    exact h0.1
  refine ⟨?_, e5, ?_, ?_, ?_⟩
  · rw [ha2]; simp [set_addr_from_key, haddr]
  · intro i h1 h5
    rw [ha2]
    simp only [set_addr_from_key]
    have hi : i = 1 ∨ i = 2 ∨ i = 3 ∨ i = 4 ∨ i = 5 := by omega
    rcases hi with rfl | rfl | rfl | rfl | rfl
    · rw [getD_set_other _ _ _ _ (by decide), getD_set_other _ _ _ _ (by decide),
        getD_set_other _ _ _ _ (by decide), getD_set_other _ _ _ _ (by decide),
        getD_set_same _ _ _ (by simp; omega)]
      exact hk 1 (by omega)
    · rw [getD_set_other _ _ _ _ (by decide), getD_set_other _ _ _ _ (by decide),
        getD_set_other _ _ _ _ (by decide), getD_set_same _ _ _ (by simp; omega)]
      exact hk 2 (by omega)
    · rw [getD_set_other _ _ _ _ (by decide), getD_set_other _ _ _ _ (by decide),
        getD_set_same _ _ _ (by simp; omega)]
      exact hk 3 (by omega)
    · rw [getD_set_other _ _ _ _ (by decide), getD_set_same _ _ _ (by simp; omega)]
      exact hk 4 (by omega)
    · rw [getD_set_same _ _ _ (by simp; omega)]
      exact hk 5 (by omega)
  · rw [e5]; exact h0.2.1
  · rw [e5]; exact h0.2.2

/-- Witness for C1 at the sample key and the initial state. -/
theorem C1_address_from_key_witness :
    (set_addr_from_key sample_key initial_state).bt_addr = [5, 4, 3, 2, 1, 0xDA] ∧
    (((set_addr_from_key sample_key initial_state).bt_addr.length = 6 ∧
      (set_addr_from_key sample_key initial_state).bt_addr.getD 5 0
        = sample_key.getD 0 0 ||| 0xC0 ∧
      (∀ i, 1 ≤ i → i ≤ 5 →
        (set_addr_from_key sample_key initial_state).bt_addr.getD (5 - i) 0
          = sample_key.getD i 0) ∧
      (set_addr_from_key sample_key initial_state).bt_addr.getD 5 0 >>> 6 = 0b11 ∧
      (set_addr_from_key sample_key initial_state).bt_addr.getD 5 0 &&& 0x3F
        = sample_key.getD 0 0 &&& 0x3F) ∧
    ∀ sdk, (ble_set_advertisement_key sdk sd_accept_all sample_key
      initial_state).completed = true) :=
  ⟨by decide, C1_address_from_key sample_key initial_state _ (by decide) (by decide)
    (by decide) (Or.inl rfl)⟩

theorem getElem?_eq_some_getD (l : List Nat) (i : Nat) (h : i < l.length) :
    l[i]? = some (l.getD i 0) := by
  simp [List.getD_eq_getElem?_getD, List.getElem?_eq_getElem h]

/-- C2: for every 28-byte key `K` and every prior content of the payload
buffer, the payload `p` left by `fill_adv_template_from_key K`, and by every run
of `ble_set_advertisement_key K` that returns, has `p[7 + i] = K[6 + i]` for
`i = 0..21`: bytes 7..28 are the key bytes 6..27 in the same order. Against a
SoftDevice that accepts every call the run does return. -/
theorem C2_payload_from_key (key : List Nat) (st : State) (p : List Nat)
    (hlen : key.length = 28) (hadv : st.offline_finding_adv.length = 31)
    (hp : p = (fill_adv_template_from_key key st).offline_finding_adv ∨
      ∃ sdk dev, (ble_set_advertisement_key sdk dev key st).completed = true ∧
        p = (ble_set_advertisement_key sdk dev key st).state.offline_finding_adv) :
    ((∀ i, i < 22 → p.getD (7 + i) 0 = key.getD (6 + i) 0) ∧
      (p.drop 7).take 22 = key.drop 6) ∧
    ∀ sdk, (ble_set_advertisement_key sdk sd_accept_all key st).completed = true := by
  refine ⟨?_, fun sdk => set_advertisement_key_accept_all sdk key st⟩
  have hp2 : p = (fill_adv_template_from_key key st).offline_finding_adv := by
    rcases hp with h | ⟨sdk, dev, hc, h⟩
    · exact h
    · rw [h]; exact run_offline_finding_adv sdk dev key st hc
  have hplen : p.length = 31 := by
    rw [hp2]; simp [fill_adv_template_from_key, memcpy_length, hadv]
  have hget : ∀ i, i < 22 → p.getD (7 + i) 0 = key.getD (6 + i) 0 := by
    intro i hi
    rw [hp2]
    simp only [fill_adv_template_from_key]
    rw [getD_set_other _ _ _ _ (by omega)]
    exact memcpy_getD_inside 22 _ 7 key 6 i hi (by omega)
  refine ⟨hget, ?_⟩
  apply List.ext_getElem?
  intro i
  by_cases hi : i < 22
  · rw [List.getElem?_take_of_lt hi, List.getElem?_drop, List.getElem?_drop,
      getElem?_eq_some_getD p (7 + i) (by omega),
      getElem?_eq_some_getD key (6 + i) (by omega), hget i hi]
  · rw [List.getElem?_eq_none (by simp; omega), List.getElem?_eq_none (by simp; omega)]

/-- Witness for C2 at the sample key and the initial state. -/
theorem C2_payload_from_key_witness :
    ((∀ i, i < 22 →
        (fill_adv_template_from_key sample_key initial_state).offline_finding_adv.getD
          (7 + i) 0 = sample_key.getD (6 + i) 0) ∧
      ((fill_adv_template_from_key sample_key initial_state).offline_finding_adv.drop 7).take
        22 = sample_key.drop 6) ∧
    ∀ sdk, (ble_set_advertisement_key sdk sd_accept_all sample_key
      initial_state).completed = true :=
  C2_payload_from_key sample_key initial_state _ (by decide) (by decide) (Or.inl rfl)

/-- C3: for every 28-byte key `K` (bytes `0..255`), byte 29 of the payload `p`
left by `fill_adv_template_from_key K`, and by every run of
`ble_set_advertisement_key K` that returns, satisfies
`p[29] & 0b11 = (K[0] >> 6) & 0b11`, and its upper six bits are 0, so
`p[29] <= 3`. Against a SoftDevice that accepts every call the run does
return. -/
theorem C3_top_bits_byte (key : List Nat) (st : State) (p : List Nat)
    (hlen : key.length = 28) (hbyte : ∀ b ∈ key, b < 256)
    (hadv : st.offline_finding_adv.length = 31)
    (hp : p = (fill_adv_template_from_key key st).offline_finding_adv ∨
      ∃ sdk dev, (ble_set_advertisement_key sdk dev key st).completed = true ∧
        p = (ble_set_advertisement_key sdk dev key st).state.offline_finding_adv) :
    (p.getD 29 0 &&& 0b11 = (key.getD 0 0 >>> 6) &&& 0b11 ∧
      p.getD 29 0 >>> 2 = 0 ∧ p.getD 29 0 &&& 0b11111100 = 0 ∧ p.getD 29 0 ≤ 3 ∧
      p.getD 29 0 = key.getD 0 0 >>> 6) ∧
    ∀ sdk, (ble_set_advertisement_key sdk sd_accept_all key st).completed = true := by
  refine ⟨?_, fun sdk => set_advertisement_key_accept_all sdk key st⟩
  have hp2 : p = (fill_adv_template_from_key key st).offline_finding_adv := by
    rcases hp with h | ⟨sdk, dev, hc, h⟩
    · exact h
    · rw [h]; exact run_offline_finding_adv sdk dev key st hc
  have h0 := top_bits_byte _ (key_byte_lt key hbyte 0 (by omega))
  have e : p.getD 29 0 = key.getD 0 0 >>> 6 := by
    rw [hp2]
    simp only [fill_adv_template_from_key]
    rw [getD_set_same _ _ _ (by rw [memcpy_length]; omega)]
    exact h0.1
  rw [e]
  exact ⟨rfl, h0.2.2.1, h0.2.2.2.2, Nat.le_of_lt_succ h0.2.2.2.1, rfl⟩

/-- Witness for C3 at the sample key (first byte `0x9A`) and the initial
state. -/
theorem C3_top_bits_byte_witness :
    (fill_adv_template_from_key sample_key initial_state).offline_finding_adv.getD 29 0 = 2 ∧
    (((fill_adv_template_from_key sample_key initial_state).offline_finding_adv.getD 29 0
        &&& 0b11 = (sample_key.getD 0 0 >>> 6) &&& 0b11 ∧
      (fill_adv_template_from_key sample_key initial_state).offline_finding_adv.getD 29 0
        >>> 2 = 0 ∧
      (fill_adv_template_from_key sample_key initial_state).offline_finding_adv.getD 29 0
        &&& 0b11111100 = 0 ∧
      (fill_adv_template_from_key sample_key initial_state).offline_finding_adv.getD 29 0
        ≤ 3 ∧
      (fill_adv_template_from_key sample_key initial_state).offline_finding_adv.getD 29 0
        = sample_key.getD 0 0 >>> 6) ∧
    ∀ sdk, (ble_set_advertisement_key sdk sd_accept_all sample_key
      initial_state).completed = true) :=
  ⟨by decide, C3_top_bits_byte sample_key initial_state _ (by decide) (by decide) (by decide)
    (Or.inl rfl)⟩

/-! ## Status encoder -/

theorem battery_bits_cases (L : Nat) :
    battery_bits L = 0 ∨ battery_bits L = 64 ∨ battery_bits L = 128 ∨ battery_bits L = 192 := by
  unfold battery_bits STATUS_FLAG_MEDIUM_BATTERY STATUS_FLAG_LOW_BATTERY
    STATUS_FLAG_CRITICALLY_LOW_BATTERY
  split
  · exact Or.inl rfl
  · split
    · exact Or.inr (Or.inl rfl)
    · split
      · exact Or.inr (Or.inr (Or.inl rfl))
      · exact Or.inr (Or.inr (Or.inr rfl))

theorem set_battery_eq (L : Nat) (st : State) (hs : st.status_flag < 256) :
    set_battery L st =
      { st with status_flag := st.status_flag % 64 + battery_bits L,
                offline_finding_adv :=
                  st.offline_finding_adv.set 6 (st.status_flag % 64 + battery_bits L) } := by
  have hm : st.status_flag % 64 < 64 := Nat.mod_lt _ (by decide)
  have hor := battery_or_byte _ hm
  have hu : ∀ x, x < 256 → u8 x = x := fun x hx => Nat.mod_eq_of_lt hx
  simp only [STATUS_FLAG_MEDIUM_BATTERY, STATUS_FLAG_LOW_BATTERY,
    STATUS_FLAG_CRITICALLY_LOW_BATTERY] at hor
  unfold set_battery _set_status battery_bits
  simp only [battery_clear_byte _ hs]
  split
  · simp only [Nat.add_zero, hu _ (show st.status_flag % 64 < 256 by omega)]
  · split
    · simp only [hor.1, STATUS_FLAG_MEDIUM_BATTERY,
        hu _ (show st.status_flag % 64 + 64 < 256 by omega)]
    · split
      · simp only [hor.2.1, STATUS_FLAG_LOW_BATTERY,
          hu _ (show st.status_flag % 64 + 128 < 256 by omega)]
      · simp only [hor.2.2, STATUS_FLAG_CRITICALLY_LOW_BATTERY,
          hu _ (show st.status_flag % 64 + 192 < 256 by omega)]

theorem set_status_eq (b : Nat) (st : State) (hs : st.status_flag < 256) (hb : b < 64) :
    set_status b st =
      { st with status_flag := st.status_flag / 64 * 64 + b,
                offline_finding_adv :=
                  st.offline_finding_adv.set 6 (st.status_flag / 64 * 64 + b) } := by
  have hh : st.status_flag / 64 < 4 := by omega
  have hor := counter_or_byte _ hh _ hb
  have hu : u8 (st.status_flag / 64 * 64 + b) = st.status_flag / 64 * 64 + b :=
    Nat.mod_eq_of_lt (by omega)
  unfold set_status _set_status
  simp only [counter_clear_byte _ hs, hor, hu]

set_option maxRecDepth 100000 in
theorem tier_fields_byte : ∀ m < 64,
    (m >>> 6 = 0 ∧ (m + 64) >>> 6 = 1 ∧ (m + 128) >>> 6 = 2 ∧ (m + 192) >>> 6 = 3) ∧
    (m &&& STATUS_FLAG_COUNTER_MASK = m ∧ (m + 64) &&& STATUS_FLAG_COUNTER_MASK = m ∧
      (m + 128) &&& STATUS_FLAG_COUNTER_MASK = m ∧
      (m + 192) &&& STATUS_FLAG_COUNTER_MASK = m) := by
  decide

set_option maxRecDepth 100000 in
theorem mask_fields_byte : ∀ s < 256,
    s &&& STATUS_FLAG_COUNTER_MASK = s % 64 ∧ s &&& STATUS_FLAG_BATTERY_MASK = s / 64 * 64 := by
  decide

theorem battery_bits_val (L : Nat) :
    (80 < L → battery_bits L = 0) ∧ (50 < L → L ≤ 80 → battery_bits L = 64) ∧
    (30 < L → L ≤ 50 → battery_bits L = 128) ∧ (L ≤ 30 → battery_bits L = 192) := by
  unfold battery_bits STATUS_FLAG_MEDIUM_BATTERY STATUS_FLAG_LOW_BATTERY
    STATUS_FLAG_CRITICALLY_LOW_BATTERY
  refine ⟨fun h => ?_, fun h1 h2 => ?_, fun h1 h2 => ?_, fun h => ?_⟩
  · rw [if_pos h]
  · rw [if_neg (by omega), if_pos h1]
  · rw [if_neg (by omega), if_neg (by omega), if_pos h1]
  · rw [if_neg (by omega), if_neg (by omega), if_neg (by omega)]

theorem set_battery_status_flag (L : Nat) (st : State) (hs : st.status_flag < 256) :
    (set_battery L st).status_flag = st.status_flag % 64 + battery_bits L := by
  rw [set_battery_eq L st hs]

theorem set_battery_payload (L : Nat) (st : State) (hs : st.status_flag < 256)
    (hadv : 6 < st.offline_finding_adv.length) :
    (set_battery L st).offline_finding_adv.getD 6 0 = (set_battery L st).status_flag := by
  rw [set_battery_eq L st hs]
  exact getD_set_same _ _ _ hadv

theorem set_status_payload (b : Nat) (st : State) (hs : st.status_flag < 256) (hb : b < 64)
    (hadv : 6 < st.offline_finding_adv.length) :
    (set_status b st).offline_finding_adv.getD 6 0 = (set_status b st).status_flag := by
  rw [set_status_eq b st hs hb]
  exact getD_set_same _ _ _ hadv

theorem set_battery_high_bits (L : Nat) (st : State) (hs : st.status_flag < 256) :
    (80 < L → (set_battery L st).status_flag >>> 6 = 0b00) ∧
    (50 < L → L ≤ 80 → (set_battery L st).status_flag >>> 6 = 0b01) ∧
    (30 < L → L ≤ 50 → (set_battery L st).status_flag >>> 6 = 0b10) ∧
    (L ≤ 30 → (set_battery L st).status_flag >>> 6 = 0b11) := by
  have hm : st.status_flag % 64 < 64 := Nat.mod_lt _ (by decide)
  have ht := (tier_fields_byte _ hm).1
  have hb := battery_bits_val L
  rw [set_battery_status_flag L st hs]
  refine ⟨fun h => ?_, fun h1 h2 => ?_, fun h1 h2 => ?_, fun h => ?_⟩
  · rw [hb.1 h]; exact ht.1
  · rw [hb.2.1 h1 h2]; exact ht.2.1
  · rw [hb.2.2.1 h1 h2]; exact ht.2.2.1
  · rw [hb.2.2.2 h]; exact ht.2.2.2

/-- C4: for every prior status byte and every battery level `L`, after
`set_battery L` payload byte 6 equals the status byte, and the two high bits of
the status byte are `00` if `L > 80`, `01` if `50 < L <= 80`, `10` if
`30 < L <= 50`, `11` if `L <= 30`; in particular 81 gives `00`, 80 and 51 give
`01`, 50 and 31 give `10`, 30 and 0 give `11`. -/
theorem C4_battery_tiers (L : Nat) (st : State) (hs : st.status_flag < 256)
    (hadv : st.offline_finding_adv.length = 31) :
    ((set_battery L st).offline_finding_adv.getD 6 0 = (set_battery L st).status_flag ∧
      (80 < L → (set_battery L st).status_flag >>> 6 = 0b00) ∧
      (50 < L → L ≤ 80 → (set_battery L st).status_flag >>> 6 = 0b01) ∧
      (30 < L → L ≤ 50 → (set_battery L st).status_flag >>> 6 = 0b10) ∧
      (L ≤ 30 → (set_battery L st).status_flag >>> 6 = 0b11)) ∧
    ((set_battery 81 st).status_flag >>> 6 = 0b00 ∧
      (set_battery 80 st).status_flag >>> 6 = 0b01 ∧
      (set_battery 51 st).status_flag >>> 6 = 0b01 ∧
      (set_battery 50 st).status_flag >>> 6 = 0b10 ∧
      (set_battery 31 st).status_flag >>> 6 = 0b10 ∧
      (set_battery 30 st).status_flag >>> 6 = 0b11 ∧
      (set_battery 0 st).status_flag >>> 6 = 0b11) :=
  ⟨⟨set_battery_payload L st hs (by omega), set_battery_high_bits L st hs⟩,
    (set_battery_high_bits 81 st hs).1 (by decide),
    (set_battery_high_bits 80 st hs).2.1 (by decide) (by decide),
    (set_battery_high_bits 51 st hs).2.1 (by decide) (by decide),
    (set_battery_high_bits 50 st hs).2.2.1 (by decide) (by decide),
    (set_battery_high_bits 31 st hs).2.2.1 (by decide) (by decide),
    (set_battery_high_bits 30 st hs).2.2.2 (by decide),
    (set_battery_high_bits 0 st hs).2.2.2 (by decide)⟩

/-- Witness for C4: level 50 applied to the initial state with status byte
`0x3F`. -/
theorem C4_battery_tiers_witness :
    (set_battery 50 (set_raw_status 0x3F initial_state)).status_flag = 0xBF ∧
    (((set_battery 50 (set_raw_status 0x3F initial_state)).offline_finding_adv.getD 6 0
        = (set_battery 50 (set_raw_status 0x3F initial_state)).status_flag ∧
      (80 < 50 → (set_battery 50 (set_raw_status 0x3F initial_state)).status_flag >>> 6
        = 0b00) ∧
      (50 < 50 → 50 ≤ 80 →
        (set_battery 50 (set_raw_status 0x3F initial_state)).status_flag >>> 6 = 0b01) ∧
      (30 < 50 → 50 ≤ 50 →
        (set_battery 50 (set_raw_status 0x3F initial_state)).status_flag >>> 6 = 0b10) ∧
      (50 ≤ 30 → (set_battery 50 (set_raw_status 0x3F initial_state)).status_flag >>> 6
        = 0b11)) ∧
    ((set_battery 81 (set_raw_status 0x3F initial_state)).status_flag >>> 6 = 0b00 ∧
      (set_battery 80 (set_raw_status 0x3F initial_state)).status_flag >>> 6 = 0b01 ∧
      (set_battery 51 (set_raw_status 0x3F initial_state)).status_flag >>> 6 = 0b01 ∧
      (set_battery 50 (set_raw_status 0x3F initial_state)).status_flag >>> 6 = 0b10 ∧
      (set_battery 31 (set_raw_status 0x3F initial_state)).status_flag >>> 6 = 0b10 ∧
      (set_battery 30 (set_raw_status 0x3F initial_state)).status_flag >>> 6 = 0b11 ∧
      (set_battery 0 (set_raw_status 0x3F initial_state)).status_flag >>> 6 = 0b11)) :=
  ⟨by decide, C4_battery_tiers 50 (set_raw_status 0x3F initial_state) (by decide)
    (by decide)⟩

/-- C5: for every prior status byte `s` and every `b` in `0..63`, `set_status b`
leaves a status byte whose low six bits are `b` and whose high two bits are
those of `s`; for every `s` and every level `L`, `set_battery L` leaves a status
byte whose low six bits are those of `s`; in both cases payload byte 6 equals
the new status byte. -/
theorem C5_status_halves (b L : Nat) (st : State) (hs : st.status_flag < 256) (hb : b < 64)
    (hadv : st.offline_finding_adv.length = 31) :
    ((set_status b st).status_flag &&& STATUS_FLAG_COUNTER_MASK = b ∧
      (set_status b st).status_flag &&& STATUS_FLAG_BATTERY_MASK
        = st.status_flag &&& STATUS_FLAG_BATTERY_MASK ∧
      (set_status b st).offline_finding_adv.getD 6 0 = (set_status b st).status_flag) ∧
    ((set_battery L st).status_flag &&& STATUS_FLAG_COUNTER_MASK
        = st.status_flag &&& STATUS_FLAG_COUNTER_MASK ∧
      (set_battery L st).offline_finding_adv.getD 6 0 = (set_battery L st).status_flag) := by
  have hm : st.status_flag % 64 < 64 := Nat.mod_lt _ (by decide)
  have hh : st.status_flag / 64 < 4 := by omega
  have hf := status_fields_byte _ hh _ hb
  have hmask := mask_fields_byte _ hs
  have ht := (tier_fields_byte _ hm).2
  refine ⟨⟨?_, ?_, set_status_payload b st hs hb (by omega)⟩, ?_,
    set_battery_payload L st hs (by omega)⟩
  · rw [set_status_eq b st hs hb]; exact hf.2.1
  · rw [set_status_eq b st hs hb, hmask.2]; exact hf.2.2
  · rw [set_battery_status_flag L st hs, hmask.1]
    rcases battery_bits_cases L with h | h | h | h <;> rw [h]
    · exact ht.1
    · exact ht.2.1
    · exact ht.2.2.1
    · exact ht.2.2.2

/-- Witness for C5: bits 5 and level 20 applied to a state with status byte
`0x9C`. -/
theorem C5_status_halves_witness :
    (set_status 5 (set_raw_status 0x9C initial_state)).status_flag = 0x85 ∧
    (set_battery 20 (set_raw_status 0x9C initial_state)).status_flag = 0xDC ∧
    (((set_status 5 (set_raw_status 0x9C initial_state)).status_flag
        &&& STATUS_FLAG_COUNTER_MASK = 5 ∧
      (set_status 5 (set_raw_status 0x9C initial_state)).status_flag
        &&& STATUS_FLAG_BATTERY_MASK
        = (set_raw_status 0x9C initial_state).status_flag &&& STATUS_FLAG_BATTERY_MASK ∧
      (set_status 5 (set_raw_status 0x9C initial_state)).offline_finding_adv.getD 6 0
        = (set_status 5 (set_raw_status 0x9C initial_state)).status_flag) ∧
    ((set_battery 20 (set_raw_status 0x9C initial_state)).status_flag
        &&& STATUS_FLAG_COUNTER_MASK
        = (set_raw_status 0x9C initial_state).status_flag &&& STATUS_FLAG_COUNTER_MASK ∧
      (set_battery 20 (set_raw_status 0x9C initial_state)).offline_finding_adv.getD 6 0
        = (set_battery 20 (set_raw_status 0x9C initial_state)).status_flag)) :=
  ⟨by decide, by decide, C5_status_halves 5 20 (set_raw_status 0x9C initial_state) (by decide)
    (by decide) (by decide)⟩

/-- C6: for every prior status byte, level `L` and `b` in `0..63`, applying
`set_battery L` twice leaves the same state (status byte and payload) as
applying it once, and `set_battery L` then `set_status b` leaves the same state
(status byte and payload byte 6) as `set_status b` then `set_battery L`. -/
theorem C6_battery_idempotent_commutes (b L : Nat) (st : State) (hs : st.status_flag < 256)
    (hb : b < 64) :
    (set_battery L (set_battery L st) = set_battery L st ∧
      (set_battery L (set_battery L st)).status_flag = (set_battery L st).status_flag) ∧
    (set_status b (set_battery L st) = set_battery L (set_status b st) ∧
      (set_status b (set_battery L st)).status_flag
        = (set_battery L (set_status b st)).status_flag ∧
      (set_status b (set_battery L st)).offline_finding_adv.getD 6 0
        = (set_battery L (set_status b st)).offline_finding_adv.getD 6 0) := by
  have hbits := battery_bits_cases L
  have h1 : (set_battery L st).status_flag < 256 := by
    rw [set_battery_status_flag L st hs]; omega
  have h2 : (set_status b st).status_flag < 256 := by
    rw [set_status_eq b st hs hb]
    show st.status_flag / 64 * 64 + b < 256
    omega
  have e1 : set_battery L (set_battery L st) = set_battery L st := by
    rw [set_battery_eq L (set_battery L st) h1, set_battery_eq L st hs]
    have : (st.status_flag % 64 + battery_bits L) % 64 + battery_bits L
        = st.status_flag % 64 + battery_bits L := by omega
    simp only [this, List.set_set]
  have e2 : set_status b (set_battery L st) = set_battery L (set_status b st) := by
    rw [set_status_eq b (set_battery L st) h1 hb, set_battery_eq L (set_status b st) h2,
      set_battery_eq L st hs, set_status_eq b st hs hb]
    have : (st.status_flag % 64 + battery_bits L) / 64 * 64 + b
        = (st.status_flag / 64 * 64 + b) % 64 + battery_bits L := by omega
    simp only [this, List.set_set]
  exact ⟨⟨e1, by rw [e1]⟩, e2, by rw [e2], by rw [e2]⟩

/-- Witness for C6: `L = 20`, `b = 5` on the initial state. -/
theorem C6_battery_idempotent_commutes_witness :
    (set_status 5 (set_battery 20 initial_state)).status_flag = 0xC5 ∧
    (set_battery 20 (set_status 5 initial_state)).status_flag = 0xC5 ∧
    ((set_battery 20 (set_battery 20 initial_state) = set_battery 20 initial_state ∧
      (set_battery 20 (set_battery 20 initial_state)).status_flag
        = (set_battery 20 initial_state).status_flag) ∧
    (set_status 5 (set_battery 20 initial_state)
        = set_battery 20 (set_status 5 initial_state) ∧
      (set_status 5 (set_battery 20 initial_state)).status_flag
        = (set_battery 20 (set_status 5 initial_state)).status_flag ∧
      (set_status 5 (set_battery 20 initial_state)).offline_finding_adv.getD 6 0
        = (set_battery 20 (set_status 5 initial_state)).offline_finding_adv.getD 6 0)) :=
  ⟨by decide, by decide, C6_battery_idempotent_commutes 5 20 initial_state (by decide)
    (by decide)⟩

/-! ## Provisioning service -/

/-- C7 fails as stated: a 28-byte write to the Key-Write value handle of a
service whose `key_write_handler` is `NULL` invokes nothing. -/
theorem C7_null_handler_counterexample :
    (sample_write_evt 0).evt_id = evt_id_t.BLE_GATTS_EVT_WRITE ∧
    (sample_write_evt 0).write_handle = config_service_zero.key_write_handles.value_handle ∧
    (sample_write_evt 0).write_len = 28 ∧
    config_service_zero.key_write_handler = none ∧
    (config_service_on_ble_evt (some config_service_zero) (some (sample_write_evt 0))).2 = [] ∧
    (config_service_on_ble_evt (some config_service_zero)
      (some (sample_write_evt 0))).2.length ≠ 1 := by
  decide

/-- C7 (amended): for every write event delivered to `config_service_on_ble_evt`
that targets the Key-Write value handle: if the written length differs from 28
no callback is invoked and the service state is unchanged; if the length is
exactly 28 and a `key_write_handler` is registered, that handler is invoked
exactly once, with the received data bytes and length 28; if the length is 28
and the handler pointer is `NULL`, nothing is invoked. -/
theorem C7_key_write_length_gate (svc : config_service_t) (evt : ble_evt_t)
    (hid : evt.evt_id = evt_id_t.BLE_GATTS_EVT_WRITE)
    (hh : evt.write_handle = svc.key_write_handles.value_handle) :
    (evt.write_len ≠ 28 →
      (config_service_on_ble_evt (some svc) (some evt)).2 = [] ∧
      (config_service_on_ble_evt (some svc) (some evt)).1 = some svc) ∧
    (evt.write_len = 28 → ∀ h, svc.key_write_handler = some h →
      (config_service_on_ble_evt (some svc) (some evt)).2 =
        [{ handler := h, service := svc, key_data := evt.write_data, length := 28 }]) ∧
    (evt.write_len = 28 → svc.key_write_handler = none →
      (config_service_on_ble_evt (some svc) (some evt)).2 = []) := by
  simp only [config_service_on_ble_evt, hid, on_write, hh, CONFIG_SERVICE_KEY_LENGTH]
  refine ⟨fun h => ?_, fun h f hf => ?_, fun h hf => ?_⟩
  · simp [h]
  · simp [h, hf]
  · simp [h, hf]

/-- Witness for C7: writes of 27, 29 and 28 bytes to the sample service. -/
theorem C7_key_write_length_gate_witness :
    (config_service_on_ble_evt (some sample_service)
        (some { sample_write_evt 17 with write_len := 27 }))
      = (some sample_service, []) ∧
    (config_service_on_ble_evt (some sample_service)
        (some { sample_write_evt 17 with write_len := 29 }))
      = (some sample_service, []) ∧
    (((sample_write_evt 17).write_len ≠ 28 →
        (config_service_on_ble_evt (some sample_service) (some (sample_write_evt 17))).2
          = [] ∧
        (config_service_on_ble_evt (some sample_service) (some (sample_write_evt 17))).1
          = some sample_service) ∧
      ((sample_write_evt 17).write_len = 28 → ∀ h, sample_service.key_write_handler = some h →
        (config_service_on_ble_evt (some sample_service) (some (sample_write_evt 17))).2 =
          [{ handler := h, service := sample_service,
             key_data := (sample_write_evt 17).write_data, length := 28 }]) ∧
      ((sample_write_evt 17).write_len = 28 → sample_service.key_write_handler = none →
        (config_service_on_ble_evt (some sample_service) (some (sample_write_evt 17))).2
          = [])) :=
  ⟨by decide, by decide,
    C7_key_write_length_gate sample_service (sample_write_evt 17) (by decide) (by decide)⟩

/-! ## Mode controller -/

theorem on_ble_evt_fields (evt : ble_evt_t) (st : State) :
    (on_ble_evt evt st).m_current_mode = st.m_current_mode ∧
    (on_ble_evt evt st).m_config_service = st.m_config_service ∧
    (on_ble_evt evt st).key_write_calls = st.key_write_calls := by
  unfold on_ble_evt
  split <;> exact ⟨rfl, rfl, rfl⟩

/-- C8: whenever the operating mode is `BLE_MODE_OFFLINE`, for every event
passed to `ble_evt_dispatch` the provisioning service is not called: the
dispatch does exactly what `on_ble_evt` alone does, no key-write callback is
invoked, the config service object is unchanged and the mode stays
`BLE_MODE_OFFLINE`. -/
theorem C8_offline_no_forwarding (evt : ble_evt_t) (st : State)
    (hmode : st.m_current_mode = ble_operating_mode_t.BLE_MODE_OFFLINE) :
    ble_evt_dispatch evt st = on_ble_evt evt st ∧
    (ble_evt_dispatch evt st).key_write_calls = st.key_write_calls ∧
    (ble_evt_dispatch evt st).m_config_service = st.m_config_service ∧
    (ble_evt_dispatch evt st).m_current_mode = ble_operating_mode_t.BLE_MODE_OFFLINE := by
  have hf := on_ble_evt_fields evt st
  have e : ble_evt_dispatch evt st = on_ble_evt evt st := by
    unfold ble_evt_dispatch
    simp only [hf.1, hmode]
    rfl
  rw [e, hf.1, hf.2.1, hf.2.2]
  exact ⟨rfl, rfl, rfl, hmode⟩

/-- Witness for C8: a 28-byte write to the Key-Write handle of the sample
service reaches the callback in `BLE_MODE_CONFIG` and is not forwarded in
`BLE_MODE_OFFLINE`. -/
theorem C8_offline_no_forwarding_witness :
    (ble_evt_dispatch (sample_write_evt 17) config_sample_state).key_write_calls.length = 1 ∧
    (ble_evt_dispatch (sample_write_evt 17) offline_sample_state
      = on_ble_evt (sample_write_evt 17) offline_sample_state ∧
    (ble_evt_dispatch (sample_write_evt 17) offline_sample_state).key_write_calls
      = offline_sample_state.key_write_calls ∧
    (ble_evt_dispatch (sample_write_evt 17) offline_sample_state).m_config_service
      = offline_sample_state.m_config_service ∧
    (ble_evt_dispatch (sample_write_evt 17) offline_sample_state).m_current_mode
      = ble_operating_mode_t.BLE_MODE_OFFLINE) :=
  ⟨by decide, C8_offline_no_forwarding (sample_write_evt 17) offline_sample_state rfl⟩

theorem log_ext_refl (P : sd_call → Bool) (s : State) : log_ext P s s :=
  ⟨[], by simp, by simp⟩

theorem log_ext_same (P : sd_call → Bool) {s t : State} (h : t.sd_calls = s.sd_calls) :
    log_ext P s t :=
  ⟨[], by simp [h], by simp⟩

theorem log_ext_trans {P : sd_call → Bool} {a b c : State} (h1 : log_ext P a b)
    (h2 : log_ext P b c) : log_ext P a c := by
  obtain ⟨n1, e1, p1⟩ := h1
  obtain ⟨n2, e2, p2⟩ := h2
  refine ⟨n1 ++ n2, by rw [e2, e1, List.append_assoc], ?_⟩
  intro c hc
  rcases List.mem_append.mp hc with h | h
  · exact p1 c h
  · exact p2 c h

theorem log_ext_sd_log {P : sd_call → Bool} (c : sd_call) (s : State) (h : P c = true) :
    log_ext P s (sd_log c s) :=
  ⟨[c], rfl, by simpa using h⟩

theorem log_ext_check {α : Type} {P : sd_call → Bool} (b t : State) (e : Nat)
    (k : State → Outcome α) (h : log_ext P b t) (hk : log_ext P b (k t).state) :
    log_ext P b (APP_ERROR_CHECK e t k).state := by
  unfold APP_ERROR_CHECK
  split
  · exact h
  · exact hk

theorem log_ext_andThen {α β : Type} {P : sd_call → Bool} (b : State) (o : Outcome α)
    (k : α → State → Outcome β) (ho : log_ext P b o.state)
    (hk : ∀ v s, log_ext P b s → log_ext P b (k v s).state) :
    log_ext P b (o.andThen k).state := by
  cases o with
  | done v s => exact hk v s ho
  | fault e s => exact ho

theorem log_ext_adv_stop {P : sd_call → Bool} (dev : SoftDevice) (st : State)
    (hP : ∀ h, P (sd_call.sd_ble_gap_adv_stop h) = true) :
    log_ext P st (adv_stop_if_configured dev st).state := by
  unfold adv_stop_if_configured
  split
  · simp only []
    split
    · exact log_ext_check _ _ _ _ (log_ext_sd_log _ st (hP _)) (log_ext_sd_log _ st (hP _))
    · exact log_ext_sd_log _ st (hP _)
  · exact log_ext_refl P st

theorem log_ext_stop_advertising {P : sd_call → Bool} (sdk : Nat) (dev : SoftDevice)
    (st : State) (hP : ∀ h, P (sd_call.sd_ble_gap_adv_stop h) = true) :
    log_ext P st (ble_stop_advertising sdk dev st).state := by
  unfold ble_stop_advertising
  split
  · exact log_ext_adv_stop dev st hP
  · simp only []
    split
    · exact log_ext_check _ _ _ _ (log_ext_sd_log _ st (hP _)) (log_ext_sd_log _ st (hP _))
    · exact log_ext_sd_log _ st (hP _)

theorem log_ext_advertising_init {P : sd_call → Bool} (sdk : Nat) (dev : SoftDevice)
    (st : State) (hP1 : ∀ h d p, P (sd_call.sd_ble_gap_adv_set_configure h d p) = true)
    (hP2 : ∀ p, P (sd_call.sd_ble_gap_adv_start_params p) = true) :
    log_ext P st (ble_advertising_init sdk dev st).state := by
  unfold ble_advertising_init
  simp only []
  split
  · have h : log_ext P st
        { sd_log (sd_call.sd_ble_gap_adv_set_configure st.adv_handle none
            { type := adv_type_t.BLE_GAP_ADV_TYPE_NONCONNECTABLE_NONSCANNABLE_UNDIRECTED,
              interval := MSEC_TO_UNITS_0_625 ADVERTISING_INTERVAL, duration := 0 })
            { st with adv_params :=
              { type := adv_type_t.BLE_GAP_ADV_TYPE_NONCONNECTABLE_NONSCANNABLE_UNDIRECTED,
                interval := MSEC_TO_UNITS_0_625 ADVERTISING_INTERVAL, duration := 0 } } with
          adv_handle := u8 (sd_ask dev (sd_call.sd_ble_gap_adv_set_configure st.adv_handle none
            { type := adv_type_t.BLE_GAP_ADV_TYPE_NONCONNECTABLE_NONSCANNABLE_UNDIRECTED,
              interval := MSEC_TO_UNITS_0_625 ADVERTISING_INTERVAL, duration := 0 })
            { st with adv_params :=
              { type := adv_type_t.BLE_GAP_ADV_TYPE_NONCONNECTABLE_NONSCANNABLE_UNDIRECTED,
                interval := MSEC_TO_UNITS_0_625 ADVERTISING_INTERVAL,
                duration := 0 } }).adv_handle } :=
      ⟨[_], rfl, by simpa using hP1 _ _ _⟩
    exact log_ext_check _ _ _ _ h h
  · exact ⟨[_], rfl, by simpa using hP2 _⟩

theorem post_done {α : Type} {Q : State → Prop} (v : α) (s : State) (h : Q s) :
    post Q (Outcome.done v s) :=
  fun _ => h

theorem post_check {α : Type} {Q : State → Prop} (e : Nat) (t : State)
    (k : State → Outcome α) (hk : post Q (k t)) : post Q (APP_ERROR_CHECK e t k) := by
  unfold APP_ERROR_CHECK
  split
  · intro h; simp [Outcome.completed] at h
  · exact hk

theorem post_andThen {α β : Type} (R Q : State → Prop) (o : Outcome α)
    (k : α → State → Outcome β) (ho : post R o) (hk : ∀ v s, R s → post Q (k v s)) :
    post Q (o.andThen k) := by
  cases o with
  | done v s => exact hk v s (ho rfl)
  | fault e s => intro h; simp [Outcome.andThen, Outcome.completed] at h

theorem advertising_init_fields (sdk : Nat) (dev : SoftDevice) (st : State) :
    (ble_advertising_init sdk dev st).state.m_conn_handle = st.m_conn_handle ∧
    (ble_advertising_init sdk dev st).state.m_current_mode = st.m_current_mode := by
  unfold ble_advertising_init APP_ERROR_CHECK
  simp only []
  split
  · split <;> exact ⟨rfl, rfl⟩
  · exact ⟨rfl, rfl⟩

theorem stop_advertising_radio_only (sdk : Nat) (dev : SoftDevice) (st : State) :
    radio_only st (ble_stop_advertising sdk dev st).state := by
  unfold ble_stop_advertising
  split
  · exact radio_only_adv_stop dev st
  · simp only []
    split
    · exact radio_only_check _ _ _ _ (radio_only_sd_log _ st) (radio_only_sd_log _ st)
    · exact radio_only_sd_log _ st

/-- A returning run of `ble_switch_to_offline_mode` ends with no connection
handle and in `BLE_MODE_OFFLINE`. -/
theorem switch_to_offline_post (sdk : Nat) (dev : SoftDevice) (st : State) :
    post (fun s => s.m_conn_handle = BLE_CONN_HANDLE_INVALID ∧
        s.m_current_mode = ble_operating_mode_t.BLE_MODE_OFFLINE)
      (ble_switch_to_offline_mode sdk dev st) := by
  unfold ble_switch_to_offline_mode
  refine post_andThen (fun s => s.m_conn_handle = BLE_CONN_HANDLE_INVALID) _ _ _ ?_ ?_
  · split
    · simp only []
      refine post_andThen (fun _ => True) _ _ _ ?_ ?_
      · intro _; trivial
      · intro _ s _
        exact post_done _ _ rfl
    · rename_i h
      exact post_done _ _ (by simpa using h)
  · intro _ s1 h1
    refine post_andThen (fun s => s.m_conn_handle = BLE_CONN_HANDLE_INVALID) _ _ _ ?_ ?_
    · intro _
      show (ble_stop_advertising sdk dev s1).state.m_conn_handle = BLE_CONN_HANDLE_INVALID
      rw [(radio_only_fields (stop_advertising_radio_only sdk dev s1)).2.2.2.2.2.1]
      exact h1
    · intro _ s2 h2 _
      have hf := advertising_init_fields sdk dev
        { s2 with m_current_mode := ble_operating_mode_t.BLE_MODE_OFFLINE }
      simp only [] at hf ⊢
      rw [hf.1, hf.2]
      exact ⟨h2, rfl⟩

/-- With a connection handle set, the first call `ble_switch_to_offline_mode`
makes is the disconnect for that handle, and every later call of the run is an
advertising stop, configure or start. -/
theorem switch_to_offline_calls (sdk : Nat) (dev : SoftDevice) (st : State)
    (hconn : st.m_conn_handle ≠ BLE_CONN_HANDLE_INVALID) :
    ∃ rest, (ble_switch_to_offline_mode sdk dev st).state.sd_calls =
        st.sd_calls ++ sd_call.sd_ble_gap_disconnect st.m_conn_handle
          BLE_HCI_REMOTE_USER_TERMINATED_CONNECTION :: rest ∧
        ∀ c ∈ rest, is_adv_call c = true := by
  have h : log_ext is_adv_call
      (sd_log (sd_call.sd_ble_gap_disconnect st.m_conn_handle
        BLE_HCI_REMOTE_USER_TERMINATED_CONNECTION) st)
      (ble_switch_to_offline_mode sdk dev st).state := by
    unfold ble_switch_to_offline_mode
    rw [if_pos hconn]
    simp only []
    apply log_ext_andThen
    · apply log_ext_andThen
      · split
        · exact log_ext_check _ _ _ _ (log_ext_refl _ _) (log_ext_refl _ _)
        · exact log_ext_refl _ _
      · intro _ s hs
        exact log_ext_trans hs (log_ext_same _ rfl)
    · intro _ s1 hs1
      apply log_ext_andThen
      · exact log_ext_trans hs1 (log_ext_stop_advertising sdk dev s1 (fun _ => rfl))
      · intro _ s2 hs2
        refine log_ext_trans hs2 (log_ext_trans (log_ext_same _ rfl)
          (log_ext_advertising_init sdk dev
            { s2 with m_current_mode := ble_operating_mode_t.BLE_MODE_OFFLINE }
            (fun _ _ _ => rfl) (fun _ => rfl)))
  obtain ⟨new, e, hp⟩ := h
  refine ⟨new, ?_, hp⟩
  rw [e]
  simp [sd_log]

theorem stop_advertising_accept_all (sdk : Nat) (st : State) :
    (ble_stop_advertising sdk sd_accept_all st).completed = true := by
  unfold ble_stop_advertising
  split
  · exact adv_stop_accept_all st
  · simp [sd_ask, sd_accept_all, APP_ERROR_CHECK, NRF_SUCCESS, NRF_ERROR_INVALID_STATE,
      Outcome.completed]

theorem advertising_init_accept_all (sdk : Nat) (st : State) :
    (ble_advertising_init sdk sd_accept_all st).completed = true := by
  unfold ble_advertising_init
  simp only []
  split
  · simp [sd_ask, sd_accept_all, APP_ERROR_CHECK, NRF_SUCCESS, Outcome.completed]
  · rfl

theorem switch_to_offline_accept_all (sdk : Nat) (st : State) :
    (ble_switch_to_offline_mode sdk sd_accept_all st).completed = true := by
  unfold ble_switch_to_offline_mode
  apply completed_andThen_of
  · split
    · simp [sd_ask, sd_accept_all, APP_ERROR_CHECK, NRF_SUCCESS, NRF_ERROR_INVALID_STATE,
        Outcome.completed, Outcome.andThen]
    · rfl
  · intro _ s1
    apply completed_andThen_of
    · exact stop_advertising_accept_all sdk s1
    · intro _ s2
      exact advertising_init_accept_all sdk _

/-- C9: the initial operating mode is `BLE_MODE_CONFIG` with no connection
handle recorded; and from every state in which a connection handle is set, the
first SoftDevice call of `ble_switch_to_offline_mode` is the disconnect for that
handle, every later call of the run is an advertising stop, configure or start,
and a run that returns ends with the handle equal to `BLE_CONN_HANDLE_INVALID`
and the mode equal to `BLE_MODE_OFFLINE`. Against a SoftDevice that accepts
every call the run does return. -/
theorem C9_switch_to_offline (sdk : Nat) (dev : SoftDevice) (st : State)
    (hconn : st.m_conn_handle ≠ BLE_CONN_HANDLE_INVALID) :
    (initial_state.m_current_mode = ble_operating_mode_t.BLE_MODE_CONFIG ∧
      initial_state.m_conn_handle = BLE_CONN_HANDLE_INVALID) ∧
    (∃ rest, (ble_switch_to_offline_mode sdk dev st).state.sd_calls =
        st.sd_calls ++ sd_call.sd_ble_gap_disconnect st.m_conn_handle
          BLE_HCI_REMOTE_USER_TERMINATED_CONNECTION :: rest ∧
        ∀ c ∈ rest, is_adv_call c = true) ∧
    ((ble_switch_to_offline_mode sdk dev st).completed = true →
      (ble_switch_to_offline_mode sdk dev st).state.m_conn_handle = BLE_CONN_HANDLE_INVALID ∧
      (ble_switch_to_offline_mode sdk dev st).state.m_current_mode
        = ble_operating_mode_t.BLE_MODE_OFFLINE) ∧
    (ble_switch_to_offline_mode sdk sd_accept_all st).completed = true :=
  ⟨⟨rfl, rfl⟩, switch_to_offline_calls sdk dev st hconn, switch_to_offline_post sdk dev st,
    switch_to_offline_accept_all sdk st⟩

/-- Witness for C9: the switch from a state with connection handle 3, SDK 15,
all calls accepted; the calls made are disconnect, stop, configure. -/
theorem C9_switch_to_offline_witness :
    (ble_switch_to_offline_mode 15 sd_accept_all connected_sample_state).state.sd_calls =
      [sd_call.sd_ble_gap_disconnect 3 BLE_HCI_REMOTE_USER_TERMINATED_CONNECTION,
       sd_call.sd_ble_gap_adv_stop (some 0),
       sd_call.sd_ble_gap_adv_set_configure 0 none
         { type := adv_type_t.BLE_GAP_ADV_TYPE_NONCONNECTABLE_NONSCANNABLE_UNDIRECTED,
           interval := 1600, duration := 0 }] ∧
    ((initial_state.m_current_mode = ble_operating_mode_t.BLE_MODE_CONFIG ∧
      initial_state.m_conn_handle = BLE_CONN_HANDLE_INVALID) ∧
    (∃ rest, (ble_switch_to_offline_mode 15 sd_accept_all connected_sample_state).state.sd_calls
        = connected_sample_state.sd_calls ++
          sd_call.sd_ble_gap_disconnect connected_sample_state.m_conn_handle
            BLE_HCI_REMOTE_USER_TERMINATED_CONNECTION :: rest ∧
        ∀ c ∈ rest, is_adv_call c = true) ∧
    ((ble_switch_to_offline_mode 15 sd_accept_all connected_sample_state).completed = true →
      (ble_switch_to_offline_mode 15 sd_accept_all connected_sample_state).state.m_conn_handle
        = BLE_CONN_HANDLE_INVALID ∧
      (ble_switch_to_offline_mode 15 sd_accept_all connected_sample_state).state.m_current_mode
        = ble_operating_mode_t.BLE_MODE_OFFLINE) ∧
    (ble_switch_to_offline_mode 15 sd_accept_all connected_sample_state).completed = true) :=
  ⟨by decide, C9_switch_to_offline 15 sd_accept_all connected_sample_state (by decide)⟩

/-! ## Length of the advertisement payload -/

theorem log_ext_andThen_inv {α β : Type} {P : sd_call → Bool} (I : State → Prop) (b : State)
    (o : Outcome α) (k : α → State → Outcome β) (hI : I o.state)
    (ho : log_ext P b o.state)
    (hk : ∀ v s, I s → log_ext P b s → log_ext P b (k v s).state) :
    log_ext P b (o.andThen k).state := by
  cases o with
  | done v s => exact hk v s hI ho
  | fault e s => exact ho

theorem log_ext_set_mac_address {P : sd_call → Bool} (sdk : Nat) (dev : SoftDevice)
    (addr : List Nat) (st : State) (hP1 : ∀ a, P (sd_call.sd_ble_gap_addr_set a) = true)
    (hP2 : ∀ a, P (sd_call.sd_ble_gap_address_set a) = true) :
    log_ext P st (ble_set_mac_address sdk dev addr st).state := by
  unfold ble_set_mac_address
  have h : log_ext P st (sd_log (if sdk ≥ 15 then sd_call.sd_ble_gap_addr_set (addr.take 6)
      else sd_call.sd_ble_gap_address_set (addr.take 6)) st) := by
    apply log_ext_sd_log
    split
    · exact hP1 _
    · exact hP2 _
  exact log_ext_check _ _ _ _ h (log_ext_check _ _ _ _ h h)

theorem log_ext_tx_power_loop {P : sd_call → Bool} (sdk : Nat) (dev : SoftDevice)
    (hP : ∀ h p, P (sd_call.sd_ble_gap_tx_power_set h p) = true) (ps : List Int) :
    ∀ (e : Nat) (st : State), log_ext P st (tx_power_loop sdk dev ps e st).2 := by
  have hc : ∀ (st : State) (p : Int), P (tx_power_call sdk st p) = true := by
    intro st p
    unfold tx_power_call
    split <;> exact hP _ _
  induction ps with
  | nil => intro e st; exact log_ext_refl P st
  | cons p ps ih =>
    intro e st
    simp only [tx_power_loop]
    split
    · exact log_ext_trans (log_ext_sd_log _ st (hc st p)) (log_ext_same _ rfl)
    · exact log_ext_trans (log_ext_sd_log _ st (hc st p)) (ih _ _)

theorem log_ext_set_max_tx_power {P : sd_call → Bool} (sdk : Nat) (dev : SoftDevice)
    (st : State) (hP : ∀ h p, P (sd_call.sd_ble_gap_tx_power_set h p) = true) :
    log_ext P st (ble_set_max_tx_power sdk dev st).state := by
  have hc : ∀ (st : State) (p : Int), P (tx_power_call sdk st p) = true := by
    intro st p
    unfold tx_power_call
    split <;> exact hP _ _
  unfold ble_set_max_tx_power
  split
  · have h := log_ext_tx_power_loop sdk dev hP [8, 7, 6, 5, 4] 0 st
    simp only []
    split
    · exact log_ext_check _ _ _ _ h h
    · exact h
  · exact log_ext_check _ _ _ _ (log_ext_sd_log _ st (hc _ _)) (log_ext_sd_log _ st (hc _ _))

theorem log_ext_adv_data_submit {P : sd_call → Bool} (sdk : Nat) (dev : SoftDevice)
    (st : State)
    (hP1 : P (sd_call.sd_ble_gap_adv_set_configure st.adv_handle
      (some (st.offline_finding_adv, st.offline_finding_adv_len % 65536)) st.adv_params) = true)
    (hP2 : ∀ h t, P (sd_call.sd_ble_gap_adv_start_handle h t) = true)
    (hP3 : P (sd_call.sd_ble_gap_adv_data_set st.offline_finding_adv
      (u8 st.offline_finding_adv_len)) = true) :
    log_ext P st (adv_data_submit sdk dev st).state := by
  unfold adv_data_submit
  split
  · have h1 : log_ext P st
        { sd_log (sd_call.sd_ble_gap_adv_set_configure st.adv_handle
            (some (st.offline_finding_adv, st.offline_finding_adv_len % 65536)) st.adv_params)
            st with
          adv_handle := u8 (sd_ask dev (sd_call.sd_ble_gap_adv_set_configure st.adv_handle
            (some (st.offline_finding_adv, st.offline_finding_adv_len % 65536)) st.adv_params)
            st).adv_handle } :=
      ⟨[_], rfl, by simpa using hP1⟩
    apply log_ext_check _ _ _ _ h1
    simp only []
    have h2 := log_ext_trans h1 (log_ext_sd_log (sd_call.sd_ble_gap_adv_start_handle
      (u8 (sd_ask dev (sd_call.sd_ble_gap_adv_set_configure st.adv_handle
        (some (st.offline_finding_adv, st.offline_finding_adv_len % 65536)) st.adv_params)
        st).adv_handle) APP_BLE_CONN_CFG_TAG) _ (hP2 _ _))
    exact log_ext_check _ _ _ _ h2 h2
  · have h1 := log_ext_sd_log (sd_call.sd_ble_gap_adv_data_set st.offline_finding_adv
      (u8 st.offline_finding_adv_len)) st hP3
    exact log_ext_check _ _ _ _ h1 h1

/-- The calls made by `ble_set_advertisement_key` from a state whose payload
buffer has 31 bytes and whose recorded length is 31 carry, whenever they carry
the payload, 31 bytes with length argument 31. -/
theorem set_advertisement_key_log (sdk : Nat) (dev : SoftDevice) (key : List Nat)
    (st : State) (hbuf : st.offline_finding_adv.length = 31)
    (hlen : st.offline_finding_adv_len = 31) :
    log_ext (payload_call_ok 31) st (ble_set_advertisement_key sdk dev key st).state := by
  unfold ble_set_advertisement_key
  refine log_ext_andThen_inv (fun s => radio_only st s) st _ _ ?_ ?_ ?_
  · split
    · exact radio_only_adv_stop dev st
    · exact radio_only_refl st
  · split
    · exact log_ext_adv_stop dev st (fun _ => rfl)
    · exact log_ext_refl _ st
  · intro _ s1 hr1 hl1
    simp only []
    have hd := radio_only_derive key hr1
    refine log_ext_andThen_inv (fun s => radio_only (derive_identity key st) s) st _ _ ?_ ?_ ?_
    · exact radio_only_trans hd (radio_only_set_mac_address _ _ _ _)
    · exact log_ext_trans hl1 (log_ext_trans (log_ext_same _ rfl)
        (log_ext_set_mac_address _ _ _ _ (fun _ => rfl) (fun _ => rfl)))
    · intro _ s2 hr2 hl2
      have hf := radio_only_fields hr2
      have hb2 : s2.offline_finding_adv.length = 31 := by
        rw [hf.2.1]
        simp [derive_identity, fill_adv_template_from_key, set_addr_from_key, memcpy_length,
          hbuf]
      have hl2' : s2.offline_finding_adv_len = 31 := by
        rw [hf.2.2.2.1]; exact hlen
      apply log_ext_andThen
      · refine log_ext_trans hl2 (log_ext_adv_data_submit _ _ _ ?_ (fun _ _ => rfl) ?_)
        · simp [payload_call_ok, payload_len_of, hb2, hl2']
        · simp [payload_call_ok, payload_len_of, hb2, hl2', u8]
      · intro _ s3 hl3
        apply log_ext_andThen
        · exact log_ext_trans hl3 (log_ext_set_max_tx_power _ _ _ (fun _ _ => rfl))
        · intro _ s4 hl4
          exact hl4

theorem sd_log_twice (c1 c2 : sd_call) (h : Nat) (st : State) :
    (sd_log c2 { sd_log c1 st with adv_handle := h }).sd_calls = st.sd_calls ++ c1 :: [c2] := by
  simp [sd_log]

theorem adv_data_submit_call (sdk : Nat) (dev : SoftDevice) (st : State) :
    ∃ c tail, (adv_data_submit sdk dev st).state.sd_calls = st.sd_calls ++ c :: tail ∧
      payload_len_of c = some (st.offline_finding_adv.length,
        if sdk ≥ 15 then st.offline_finding_adv_len % 65536
        else u8 st.offline_finding_adv_len) := by
  by_cases h : sdk ≥ 15
  · refine ⟨sd_call.sd_ble_gap_adv_set_configure st.adv_handle
      (some (st.offline_finding_adv, st.offline_finding_adv_len % 65536)) st.adv_params, ?_⟩
    simp only [adv_data_submit, if_pos h, APP_ERROR_CHECK]
    split
    · exact ⟨[], rfl, rfl⟩
    · split
      · exact ⟨[_], sd_log_twice _ _ _ _, rfl⟩
      · exact ⟨[_], sd_log_twice _ _ _ _, rfl⟩
  · refine ⟨sd_call.sd_ble_gap_adv_data_set st.offline_finding_adv
      (u8 st.offline_finding_adv_len), ?_⟩
    simp only [adv_data_submit, if_neg h, APP_ERROR_CHECK]
    split
    · exact ⟨[], rfl, rfl⟩
    · exact ⟨[], rfl, rfl⟩

/-- A run of `ble_set_advertisement_key` that returns, started with a 31-byte
buffer and recorded length 31, has handed the payload to the SoftDevice in one
of its calls, as 31 bytes with length argument 31. -/
theorem set_advertisement_key_submits (sdk : Nat) (dev : SoftDevice) (key : List Nat)
    (st : State) (hbuf : st.offline_finding_adv.length = 31)
    (hlen : st.offline_finding_adv_len = 31) :
    post (fun s => ∃ mid c tail, s.sd_calls = st.sd_calls ++ (mid ++ c :: tail) ∧
        payload_len_of c = some (31, 31))
      (ble_set_advertisement_key sdk dev key st) := by
  unfold ble_set_advertisement_key
  refine post_andThen
    (fun s => radio_only st s ∧ log_ext (fun _ => true) st s) _ _ _ ?_ ?_
  · intro _
    constructor
    · split
      · exact radio_only_adv_stop dev st
      · exact radio_only_refl st
    · split
      · exact log_ext_adv_stop dev st (fun _ => rfl)
      · exact log_ext_refl _ st
  · intro _ s1 h1
    simp only []
    have hd := radio_only_derive key h1.1
    refine post_andThen
      (fun s => radio_only (derive_identity key st) s ∧ log_ext (fun _ => true) st s)
      _ _ _ ?_ ?_
    · intro _
      exact ⟨radio_only_trans hd (radio_only_set_mac_address _ _ _ _),
        log_ext_trans h1.2 (log_ext_trans (log_ext_same _ rfl)
          (log_ext_set_mac_address _ _ _ _ (fun _ => rfl) (fun _ => rfl)))⟩
    · intro _ s2 h2
      have hf := radio_only_fields h2.1
      have hb2 : s2.offline_finding_adv.length = 31 := by
        rw [hf.2.1]
        simp [derive_identity, fill_adv_template_from_key, set_addr_from_key, memcpy_length,
          hbuf]
      have hl2 : s2.offline_finding_adv_len = 31 := by
        rw [hf.2.2.2.1]; exact hlen
      refine post_andThen
        (fun s => ∃ mid c tail, s.sd_calls = st.sd_calls ++ (mid ++ c :: tail) ∧
          payload_len_of c = some (31, 31)) _ _ _ ?_ ?_
      · intro _
        obtain ⟨mid, e2, _⟩ := h2.2
        obtain ⟨c, tail, e3, hc⟩ := adv_data_submit_call sdk dev s2
        refine ⟨mid, c, tail, ?_, ?_⟩
        · rw [e3, e2, List.append_assoc]
        · rw [hc, hb2, hl2]
          split <;> rfl
      · intro _ s3 h3
        refine post_andThen
          (fun s => ∃ mid c tail, s.sd_calls = st.sd_calls ++ (mid ++ c :: tail) ∧
            payload_len_of c = some (31, 31)) _ _ _ ?_ ?_
        · intro _
          obtain ⟨mid, c, tail, e3, hc⟩ := h3
          obtain ⟨new, e4, _⟩ :=
            @log_ext_set_max_tx_power (fun _ => true) sdk dev s3 (fun _ _ => rfl)
          refine ⟨mid, c, tail ++ new, ?_, hc⟩
          rw [e4, e3]
          simp [List.append_assoc]
        · intro _ s4 h4
          exact post_done _ _ h4

/-- C10 fails as stated: the initial payload buffer has 31 bytes, not 30, and a
returning `ble_set_advertisement_key` hands length 31 to the SoftDevice and
returns 31. -/
theorem C10_length_counterexample :
    initial_state.offline_finding_adv.length = 31 ∧
    initial_state.offline_finding_adv.length ≠ 30 ∧
    (ble_set_advertisement_key 15 sd_accept_all sample_key initial_state).value = some 31 ∧
    (ble_set_advertisement_key 15 sd_accept_all sample_key initial_state).value ≠ some 30 ∧
    ((ble_set_advertisement_key 15 sd_accept_all sample_key initial_state).state.sd_calls.map
      payload_len_of) = [none, some (31, 31), none, none] := by
  decide

/-- C10 (amended): the advertisement payload buffer is always exactly 31 bytes in
total (a length byte of value 30 followed by 30 bytes): its initial value has 31
bytes and the recorded length is 31; key derivation, `set_battery`,
`set_status` and `set_raw_status` change neither; every call in which
`ble_set_advertisement_key` hands the payload to the SoftDevice carries 31 bytes
with length 31, a run that returns has made such a call, ends with a 31-byte
buffer and returns 31, for every key. Against a SoftDevice that accepts every
call the run does return. -/
theorem C10_payload_length (sdk : Nat) (dev : SoftDevice) (key : List Nat) (L b r : Nat)
    (st : State) (hbuf : st.offline_finding_adv.length = 31)
    (hlen : st.offline_finding_adv_len = 31) :
    (initial_state.offline_finding_adv.length = 31 ∧
      initial_state.offline_finding_adv_len = 31 ∧
      initial_state.offline_finding_adv.getD 0 0 = 30) ∧
    ((derive_identity key st).offline_finding_adv.length = 31 ∧
      (derive_identity key st).offline_finding_adv_len = 31 ∧
      (set_battery L st).offline_finding_adv.length = 31 ∧
      (set_battery L st).offline_finding_adv_len = 31 ∧
      (set_status b st).offline_finding_adv.length = 31 ∧
      (set_status b st).offline_finding_adv_len = 31 ∧
      (set_raw_status r st).offline_finding_adv.length = 31 ∧
      (set_raw_status r st).offline_finding_adv_len = 31) ∧
    (∃ new, (ble_set_advertisement_key sdk dev key st).state.sd_calls = st.sd_calls ++ new ∧
      (∀ c ∈ new, ∀ n m, payload_len_of c = some (n, m) → n = 31 ∧ m = 31) ∧
      ((ble_set_advertisement_key sdk dev key st).completed = true →
        ∃ c ∈ new, payload_len_of c = some (31, 31))) ∧
    ((ble_set_advertisement_key sdk dev key st).completed = true →
      (ble_set_advertisement_key sdk dev key st).state.offline_finding_adv.length = 31 ∧
      (ble_set_advertisement_key sdk dev key st).state.offline_finding_adv_len = 31 ∧
      (ble_set_advertisement_key sdk dev key st).value = some 31) ∧
    (ble_set_advertisement_key sdk sd_accept_all key st).completed = true := by
  have hder : (derive_identity key st).offline_finding_adv.length = 31 := by
    simp [derive_identity, fill_adv_template_from_key, set_addr_from_key, memcpy_length, hbuf]
  refine ⟨⟨rfl, rfl, rfl⟩, ⟨hder, hlen, ?_, hlen, ?_, hlen, ?_, hlen⟩, ?_, ?_,
    set_advertisement_key_accept_all sdk key st⟩
  · simp [set_battery, _set_status, hbuf]
  · simp [set_status, _set_status, hbuf]
  · simp [set_raw_status, _set_status, hbuf]
  · obtain ⟨new, e, hp⟩ := set_advertisement_key_log sdk dev key st hbuf hlen
    refine ⟨new, e, ?_, ?_⟩
    · intro c hc n m hnm
      have h := hp c hc
      simp only [payload_call_ok, hnm, Bool.and_eq_true, beq_iff_eq] at h
      exact h
    · intro hcomp
      obtain ⟨mid, c, tail, e2, hc⟩ := set_advertisement_key_submits sdk dev key st hbuf hlen hcomp
      have : new = mid ++ c :: tail := List.append_cancel_left (e.symm.trans e2)
      exact ⟨c, by rw [this]; simp, hc⟩
  · intro hcomp
    have hf := radio_only_fields (set_advertisement_key_frame sdk dev key st hcomp)
    refine ⟨by rw [hf.2.1]; exact hder, by rw [hf.2.2.2.1]; exact hlen, ?_⟩
    cases hv : (ble_set_advertisement_key sdk dev key st).value with
    | none =>
      cases ho : ble_set_advertisement_key sdk dev key st with
      | done v s => rw [ho] at hv; simp [Outcome.value] at hv
      | fault e s => rw [ho] at hcomp; simp [Outcome.completed] at hcomp
    | some v =>
      rw [set_advertisement_key_value sdk dev key st v hv, hlen]
      rfl

/-- Witness for C10 (amended) at the sample key and the initial state. -/
theorem C10_payload_length_witness :
    (initial_state.offline_finding_adv.length = 31 ∧
      initial_state.offline_finding_adv_len = 31 ∧
      initial_state.offline_finding_adv.getD 0 0 = 30) ∧
    ((derive_identity sample_key initial_state).offline_finding_adv.length = 31 ∧
      (derive_identity sample_key initial_state).offline_finding_adv_len = 31 ∧
      (set_battery 20 initial_state).offline_finding_adv.length = 31 ∧
      (set_battery 20 initial_state).offline_finding_adv_len = 31 ∧
      (set_status 5 initial_state).offline_finding_adv.length = 31 ∧
      (set_status 5 initial_state).offline_finding_adv_len = 31 ∧
      (set_raw_status 255 initial_state).offline_finding_adv.length = 31 ∧
      (set_raw_status 255 initial_state).offline_finding_adv_len = 31) ∧
    (∃ new, (ble_set_advertisement_key 12 sd_accept_all sample_key initial_state).state.sd_calls
        = initial_state.sd_calls ++ new ∧
      (∀ c ∈ new, ∀ n m, payload_len_of c = some (n, m) → n = 31 ∧ m = 31) ∧
      ((ble_set_advertisement_key 12 sd_accept_all sample_key initial_state).completed = true →
        ∃ c ∈ new, payload_len_of c = some (31, 31))) ∧
    ((ble_set_advertisement_key 12 sd_accept_all sample_key initial_state).completed = true →
      (ble_set_advertisement_key 12 sd_accept_all sample_key
        initial_state).state.offline_finding_adv.length = 31 ∧
      (ble_set_advertisement_key 12 sd_accept_all sample_key
        initial_state).state.offline_finding_adv_len = 31 ∧
      (ble_set_advertisement_key 12 sd_accept_all sample_key initial_state).value = some 31) ∧
    (ble_set_advertisement_key 12 sd_accept_all sample_key initial_state).completed = true :=
  C10_payload_length 12 sd_accept_all sample_key 20 5 255 initial_state (by decide) (by decide)

/-! ## Frame of the identity derivation -/

/-- Whatever way a run of `ble_set_advertisement_key` ends, its state is the
starting state or the derived identity, up to the globals a SoftDevice call may
touch. -/
theorem set_advertisement_key_frame_any (sdk : Nat) (dev : SoftDevice) (key : List Nat)
    (st : State) :
    radio_only st (ble_set_advertisement_key sdk dev key st).state ∨
    radio_only (derive_identity key st) (ble_set_advertisement_key sdk dev key st).state := by
  unfold ble_set_advertisement_key
  have h0 : radio_only st
      (if sdk ≥ 15 then adv_stop_if_configured dev st else Outcome.done () st).state := by
    split
    · exact radio_only_adv_stop dev st
    · exact radio_only_refl st
  cases h1 : (if sdk ≥ 15 then adv_stop_if_configured dev st else Outcome.done () st) with
  | fault e s =>
    rw [h1] at h0
    exact Or.inl h0
  | done v s1 =>
    rw [h1] at h0
    right
    simp only [Outcome.andThen]
    refine radio_only_trans (radio_only_derive key h0) ?_
    apply radio_only_andThen
    · exact radio_only_set_mac_address _ _ _ _
    · intro _ s2 hs2
      apply radio_only_andThen
      · exact radio_only_trans hs2 (radio_only_adv_data_submit _ _ _)
      · intro _ s3 hs3
        apply radio_only_andThen
        · exact radio_only_trans hs3 (radio_only_set_max_tx_power _ _ _)
        · intro _ s4 hs4
          exact hs4

theorem derive_adv_getD_outside (key : List Nat) (st : State) (i : Nat)
    (hi : i < 7 ∨ 29 < i) :
    (derive_identity key st).offline_finding_adv.getD i 0 = st.offline_finding_adv.getD i 0 := by
  simp only [derive_identity, fill_adv_template_from_key, set_addr_from_key]
  rw [getD_set_other _ _ _ _ (by omega)]
  exact memcpy_getD_outside 22 _ 7 key 6 i (by omega)

theorem take_eq_of_getD (a b : List Nat) (n : Nat) (ha : n ≤ a.length) (hb : n ≤ b.length)
    (h : ∀ i, i < n → a.getD i 0 = b.getD i 0) : a.take n = b.take n := by
  apply List.ext_getElem?
  intro i
  by_cases hi : i < n
  · rw [List.getElem?_take_of_lt hi, List.getElem?_take_of_lt hi,
      getElem?_eq_some_getD a i (by omega), getElem?_eq_some_getD b i (by omega), h i hi]
  · rw [List.getElem?_eq_none (by simp; omega), List.getElem?_eq_none (by simp; omega)]

/-- C11: for every 28-byte key and every prior state, the state `s` left by the
identity derivation, and the state in which any run of
`ble_set_advertisement_key` ends, has the same `status_flag`, the same payload
byte 6 and the same payload bytes 0..5 as before (so the header
`1E FF 4C 00 12 19`, once there, stays); the payload is unchanged outside
offsets 7..29 and keeps its 31 bytes, and the mode, connection handle, config
service, advertising parameters and recorded payload length are unchanged. -/
theorem C11_derivation_frame (sdk : Nat) (dev : SoftDevice) (key : List Nat) (st s : State)
    (_hlen : key.length = 28) (hbuf : st.offline_finding_adv.length = 31)
    (hs : s = derive_identity key st ∨ s = (ble_set_advertisement_key sdk dev key st).state) :
    (s.status_flag = st.status_flag ∧
      s.offline_finding_adv.getD 6 0 = st.offline_finding_adv.getD 6 0 ∧
      (∀ i, i < 6 → s.offline_finding_adv.getD i 0 = st.offline_finding_adv.getD i 0) ∧
      (st.offline_finding_adv.take 6 = [0x1E, 0xFF, 0x4C, 0x00, 0x12, 0x19] →
        s.offline_finding_adv.take 6 = [0x1E, 0xFF, 0x4C, 0x00, 0x12, 0x19])) ∧
    ((∀ i, i < 7 ∨ 29 < i →
        s.offline_finding_adv.getD i 0 = st.offline_finding_adv.getD i 0) ∧
      s.offline_finding_adv.length = 31) ∧
    (s.m_current_mode = st.m_current_mode ∧ s.m_conn_handle = st.m_conn_handle ∧
      s.m_config_service = st.m_config_service ∧ s.adv_params = st.adv_params ∧
      s.offline_finding_adv_len = st.offline_finding_adv_len ∧
      s.key_write_calls = st.key_write_calls) := by
  have hder : (derive_identity key st).offline_finding_adv.length = 31 := by
    simp [derive_identity, fill_adv_template_from_key, set_addr_from_key, memcpy_length, hbuf]
  have hbase : ∃ b, (b = st ∨ b = derive_identity key st) ∧ radio_only b s := by
    rcases hs with h | h
    · exact ⟨_, Or.inr rfl, by rw [h]; exact radio_only_refl _⟩
    · rcases set_advertisement_key_frame_any sdk dev key st with h2 | h2
      · exact ⟨_, Or.inl rfl, by rw [h]; exact h2⟩
      · exact ⟨_, Or.inr rfl, by rw [h]; exact h2⟩
  obtain ⟨b, hb, hr⟩ := hbase
  have hf := radio_only_fields hr
  have hout : ∀ i, i < 7 ∨ 29 < i →
      s.offline_finding_adv.getD i 0 = st.offline_finding_adv.getD i 0 := by
    intro i hi
    rw [hf.2.1]
    rcases hb with h | h
    · rw [h]
    · rw [h]; exact derive_adv_getD_outside key st i hi
  have hl : s.offline_finding_adv.length = 31 := by
    rw [hf.2.1]
    rcases hb with h | h
    · rw [h]; exact hbuf
    · rw [h]; exact hder
  have hrest : b.status_flag = st.status_flag ∧ b.m_current_mode = st.m_current_mode ∧
      b.m_conn_handle = st.m_conn_handle ∧ b.m_config_service = st.m_config_service ∧
      b.adv_params = st.adv_params ∧
      b.offline_finding_adv_len = st.offline_finding_adv_len ∧
      b.key_write_calls = st.key_write_calls := by
    rcases hb with h | h
    · rw [h]; exact ⟨rfl, rfl, rfl, rfl, rfl, rfl, rfl⟩
    · rw [h]; exact ⟨rfl, rfl, rfl, rfl, rfl, rfl, rfl⟩
  refine ⟨⟨?_, hout 6 (by omega), fun i hi => hout i (by omega), ?_⟩, ⟨hout, hl⟩, ?_⟩
  · rw [hf.2.2.1]; exact hrest.1
  · intro h6
    rw [← h6]
    exact take_eq_of_getD _ _ 6 (by omega) (by omega) (fun i hi => hout i (by omega))
  · refine ⟨?_, ?_, ?_, ?_, ?_, ?_⟩
    · rw [hf.2.2.2.2.1]; exact hrest.2.1
    · rw [hf.2.2.2.2.2.1]; exact hrest.2.2.1
    · rw [hf.2.2.2.2.2.2.1]; exact hrest.2.2.2.1
    · rw [hf.2.2.2.2.2.2.2.1]; exact hrest.2.2.2.2.1
    · rw [hf.2.2.2.1]; exact hrest.2.2.2.2.2.1
    · rw [hf.2.2.2.2.2.2.2.2]; exact hrest.2.2.2.2.2.2

/-- Witness for C11: the sample key on the initial state with status byte
`0xC5`, run against an all-accepting SoftDevice (SDK 15). -/
theorem C11_derivation_frame_witness :
    keyed_sample_state.offline_finding_adv.take 7
      = [0x1E, 0xFF, 0x4C, 0x00, 0x12, 0x19, 0xC5] ∧
    ((keyed_sample_state.status_flag = status_sample_state.status_flag ∧
      keyed_sample_state.offline_finding_adv.getD 6 0
        = status_sample_state.offline_finding_adv.getD 6 0 ∧
      (∀ i, i < 6 → keyed_sample_state.offline_finding_adv.getD i 0
        = status_sample_state.offline_finding_adv.getD i 0) ∧
      (status_sample_state.offline_finding_adv.take 6
          = [0x1E, 0xFF, 0x4C, 0x00, 0x12, 0x19] →
        keyed_sample_state.offline_finding_adv.take 6
          = [0x1E, 0xFF, 0x4C, 0x00, 0x12, 0x19])) ∧
    ((∀ i, i < 7 ∨ 29 < i → keyed_sample_state.offline_finding_adv.getD i 0
        = status_sample_state.offline_finding_adv.getD i 0) ∧
      keyed_sample_state.offline_finding_adv.length = 31) ∧
    (keyed_sample_state.m_current_mode = status_sample_state.m_current_mode ∧
      keyed_sample_state.m_conn_handle = status_sample_state.m_conn_handle ∧
      keyed_sample_state.m_config_service = status_sample_state.m_config_service ∧
      keyed_sample_state.adv_params = status_sample_state.adv_params ∧
      keyed_sample_state.offline_finding_adv_len
        = status_sample_state.offline_finding_adv_len ∧
      keyed_sample_state.key_write_calls = status_sample_state.key_write_calls)) :=
  ⟨by decide, C11_derivation_frame 15 sd_accept_all sample_key status_sample_state
    keyed_sample_state (by decide) (by decide) (Or.inr rfl)⟩

/-! ## The derivation keeps the whole key -/

set_option maxRecDepth 100000 in
theorem key_byte_recombine : ∀ b < 256,
    ((b >>> 6) <<< 6) ||| ((b ||| 0xC0) &&& 0x3F) = b := by
  decide

theorem key_split (key : List Nat) (h : key.length = 28) :
    key = [key.getD 0 0, key.getD 1 0, key.getD 2 0, key.getD 3 0, key.getD 4 0,
      key.getD 5 0] ++ key.drop 6 := by
  rcases key with _ | ⟨k0, _ | ⟨k1, _ | ⟨k2, _ | ⟨k3, _ | ⟨k4, _ | ⟨k5, rest⟩⟩⟩⟩⟩⟩ <;>
    simp at h ⊢

theorem set_addr_bytes (key : List Nat) (st : State) (hlen : key.length = 28)
    (hbyte : ∀ b ∈ key, b < 256) (haddr : st.bt_addr.length = 6) :
    (set_addr_from_key key st).bt_addr =
      [key.getD 5 0, key.getD 4 0, key.getD 3 0, key.getD 2 0, key.getD 1 0,
        key.getD 0 0 ||| 0xC0] := by
  have h0 := (addr_top_byte _ (key_byte_lt key hbyte 0 (by omega))).1
  have hk : ∀ i, i < 28 → u8 (key.getD i 0) = key.getD i 0 := fun i hi =>
    Nat.mod_eq_of_lt (key_byte_lt key hbyte i (by omega))
  rcases hst : st.bt_addr with _ | ⟨a0, _ | ⟨a1, _ | ⟨a2, _ | ⟨a3, _ | ⟨a4, _ | ⟨a5, rest⟩⟩⟩⟩⟩⟩ <;>
    rw [hst] at haddr <;> simp at haddr
  subst haddr
  simp only [set_addr_from_key, hst, char_val, List.set_cons_succ, List.set_cons_zero,
    hk 1 (by omega), hk 2 (by omega), hk 3 (by omega), hk 4 (by omega), hk 5 (by omega)]
  rw [h0]

theorem fill_payload_bytes (key : List Nat) (st : State) (hlen : key.length = 28)
    (hbyte : ∀ b ∈ key, b < 256) (hbuf : st.offline_finding_adv.length = 31) :
    ((fill_adv_template_from_key key st).offline_finding_adv.drop 7).take 22 = key.drop 6 ∧
    (fill_adv_template_from_key key st).offline_finding_adv.getD 29 0 = key.getD 0 0 >>> 6 := by
  have hplen : (fill_adv_template_from_key key st).offline_finding_adv.length = 31 := by
    simp [fill_adv_template_from_key, memcpy_length, hbuf]
  have hget : ∀ i, i < 22 →
      (fill_adv_template_from_key key st).offline_finding_adv.getD (7 + i) 0
        = key.getD (6 + i) 0 := by
    intro i hi
    simp only [fill_adv_template_from_key]
    rw [getD_set_other _ _ _ _ (by omega)]
    exact memcpy_getD_inside 22 _ 7 key 6 i hi (by omega)
  constructor
  · apply List.ext_getElem?
    intro i
    by_cases hi : i < 22
    · rw [List.getElem?_take_of_lt hi, List.getElem?_drop, List.getElem?_drop,
        getElem?_eq_some_getD _ (7 + i) (by omega),
        getElem?_eq_some_getD key (6 + i) (by omega), hget i hi]
    · rw [List.getElem?_eq_none (by simp; omega), List.getElem?_eq_none (by simp; omega)]
  · simp only [fill_adv_template_from_key]
    rw [getD_set_same _ _ _ (by rw [memcpy_length]; omega)]
    exact (top_bits_byte _ (key_byte_lt key hbyte 0 (by omega))).1

theorem recover_key_of_derived (key : List Nat) (st : State) (hlen : key.length = 28)
    (hbyte : ∀ b ∈ key, b < 256) (haddr : st.bt_addr.length = 6)
    (hbuf : st.offline_finding_adv.length = 31) :
    recover_key (set_addr_from_key key st).bt_addr
      (fill_adv_template_from_key key st).offline_finding_adv = key := by
  have hp := fill_payload_bytes key st hlen hbyte hbuf
  have hb := key_byte_recombine _ (key_byte_lt key hbyte 0 (by omega))
  unfold recover_key
  rw [set_addr_bytes key st hlen hbyte haddr, hp.1, hp.2]
  simp only [List.getD_cons_succ, List.getD_cons_zero]
  rw [hb]
  exact (key_split key hlen).symm

theorem recover_key_congr (a p q : List Nat)
    (h : (p.drop 7).take 23 = (q.drop 7).take 23) : recover_key a p = recover_key a q := by
  have h22 : (p.drop 7).take 22 = (q.drop 7).take 22 := by
    have := congrArg (List.take 22) h
    simpa [List.take_take] using this
  have h29 : p.getD 29 0 = q.getD 29 0 := by
    have := congrArg (fun l => l.getD 22 0) h
    simpa [List.getD_eq_getElem?_getD, List.getElem?_take, List.getElem?_drop] using this
  unfold recover_key
  rw [h22, h29]

/-- C16: for every 28-byte key `K` (bytes `0..255`), the address `a` and payload
`p` left by the identity derivation, and by every run of
`ble_set_advertisement_key K` that returns, give `K` back:
`K[0] = (p[29] << 6) | (a[5] & 0x3F)`, `K[i] = a[5 - i]` for `i = 1..5` and
`K[6..27] = p[7..28]`; hence a key whose derived address and payload bytes 7..29
are the same is the same key. -/
theorem C16_key_recoverable (key : List Nat) (st : State) (a p : List Nat)
    (hlen : key.length = 28) (hbyte : ∀ b ∈ key, b < 256) (haddr : st.bt_addr.length = 6)
    (hbuf : st.offline_finding_adv.length = 31)
    (hap : (a = (derive_identity key st).bt_addr ∧
        p = (derive_identity key st).offline_finding_adv) ∨
      ∃ sdk dev, (ble_set_advertisement_key sdk dev key st).completed = true ∧
        a = (ble_set_advertisement_key sdk dev key st).state.bt_addr ∧
        p = (ble_set_advertisement_key sdk dev key st).state.offline_finding_adv) :
    (recover_key a p = key ∧
      key.getD 0 0 = (p.getD 29 0 <<< 6) ||| (a.getD 5 0 &&& 0x3F) ∧
      (∀ i, 1 ≤ i → i ≤ 5 → key.getD i 0 = a.getD (5 - i) 0) ∧
      key.drop 6 = (p.drop 7).take 22) ∧
    (∀ key2 st2, key2.length = 28 → (∀ b ∈ key2, b < 256) → st2.bt_addr.length = 6 →
      st2.offline_finding_adv.length = 31 →
      (derive_identity key2 st2).bt_addr = a →
      ((derive_identity key2 st2).offline_finding_adv.drop 7).take 23 = (p.drop 7).take 23 →
      key2 = key) := by
  have ha : a = (set_addr_from_key key st).bt_addr := by
    rcases hap with h | ⟨sdk, dev, hc, h, _⟩
    · exact h.1
    · rw [h]; exact run_bt_addr sdk dev key st hc
  have hp : p = (fill_adv_template_from_key key st).offline_finding_adv := by
    rcases hap with h | ⟨sdk, dev, hc, _, h⟩
    · exact h.2
    · rw [h]; exact run_offline_finding_adv sdk dev key st hc
  have hrec : recover_key a p = key := by
    rw [ha, hp]; exact recover_key_of_derived key st hlen hbyte haddr hbuf
  have hab := set_addr_bytes key st hlen hbyte haddr
  have hpb := fill_payload_bytes key st hlen hbyte hbuf
  have hb := key_byte_recombine _ (key_byte_lt key hbyte 0 (by omega))
  refine ⟨⟨hrec, ?_, ?_, ?_⟩, ?_⟩
  · rw [ha, hp, hab, hpb.2]
    simp only [List.getD_cons_succ, List.getD_cons_zero]
    exact hb.symm
  · intro i h1 h5
    rw [ha, hab]
    have hi : i = 1 ∨ i = 2 ∨ i = 3 ∨ i = 4 ∨ i = 5 := by omega
    rcases hi with rfl | rfl | rfl | rfl | rfl <;> rfl
  · rw [hp]; exact hpb.1.symm
  · intro key2 st2 hlen2 hbyte2 haddr2 hbuf2 ea ep
    have h2 : recover_key (derive_identity key2 st2).bt_addr
        (derive_identity key2 st2).offline_finding_adv = key2 :=
      recover_key_of_derived key2 st2 hlen2 hbyte2 haddr2 hbuf2
    rw [← h2, ← hrec, ea]
    exact recover_key_congr a _ _ ep

/-- Witness for C16: the sample key on the initial state; `sample_key2`, which
differs from it only in the top bits of byte 0, derives the same address and a
different payload byte 29. -/
theorem C16_key_recoverable_witness :
    ((derive_identity sample_key2 initial_state).bt_addr
        = (derive_identity sample_key initial_state).bt_addr ∧
      (derive_identity sample_key2 initial_state).offline_finding_adv.getD 29 0 = 1 ∧
      (derive_identity sample_key initial_state).offline_finding_adv.getD 29 0 = 2) ∧
    ((recover_key (derive_identity sample_key initial_state).bt_addr
          (derive_identity sample_key initial_state).offline_finding_adv = sample_key ∧
      sample_key.getD 0 0 =
        ((derive_identity sample_key initial_state).offline_finding_adv.getD 29 0 <<< 6) |||
          ((derive_identity sample_key initial_state).bt_addr.getD 5 0 &&& 0x3F) ∧
      (∀ i, 1 ≤ i → i ≤ 5 → sample_key.getD i 0
        = (derive_identity sample_key initial_state).bt_addr.getD (5 - i) 0) ∧
      sample_key.drop 6
        = ((derive_identity sample_key initial_state).offline_finding_adv.drop 7).take 22) ∧
    (∀ key2 st2, key2.length = 28 → (∀ b ∈ key2, b < 256) → st2.bt_addr.length = 6 →
      st2.offline_finding_adv.length = 31 →
      (derive_identity key2 st2).bt_addr = (derive_identity sample_key initial_state).bt_addr →
      ((derive_identity key2 st2).offline_finding_adv.drop 7).take 23
        = ((derive_identity sample_key initial_state).offline_finding_adv.drop 7).take 23 →
      key2 = sample_key)) :=
  ⟨by decide, C16_key_recoverable sample_key initial_state _ _ (by decide) (by decide)
    (by decide) (by decide) (Or.inl ⟨rfl, rfl⟩)⟩

/-! ## Transmit-power negotiation -/

theorem tx_power_call_sd_log (sdk : Nat) (c : sd_call) (st : State) (p : Int) :
    tx_power_call sdk (sd_log c st) p = tx_power_call sdk st p := rfl

theorem tx_accepts_zero (sdk : Nat) (dev : SoftDevice) (st : State) (p : Int)
    (ps : List Int) :
    tx_accepts sdk dev st (p :: ps) 0
      = decide ((sd_ask dev (tx_power_call sdk st p) st).err_code = NRF_SUCCESS) := by
  simp [tx_accepts, sd_ask]

theorem tx_accepts_succ (sdk : Nat) (dev : SoftDevice) (st : State) (p : Int)
    (ps : List Int) (j : Nat) :
    tx_accepts sdk dev st (p :: ps) (j + 1)
      = tx_accepts sdk dev (sd_log (tx_power_call sdk st p) st) ps j := by
  have e1 : tx_power_call sdk (sd_log (tx_power_call sdk st p) st) = tx_power_call sdk st :=
    rfl
  have e2 : (sd_log (tx_power_call sdk st p) st).sd_calls
      = st.sd_calls ++ [tx_power_call sdk st p] := rfl
  unfold tx_accepts
  rw [e1, e2]
  simp [List.append_assoc]

/-- What the loop of `ble_set_max_tx_power` does: it asks for the candidates in
list order, stops at the first accepted one and stores it; if none is accepted
it has asked for all of them and ends with a failing `err_code`. -/
theorem tx_power_loop_spec (sdk : Nat) (dev : SoftDevice) (ps : List Int) :
    ∀ (e : Nat) (st : State),
    (∃ i, i < ps.length ∧ (∀ j, j < i → tx_accepts sdk dev st ps j = false) ∧
      tx_accepts sdk dev st ps i = true ∧
      tx_power_loop sdk dev ps e st =
        (NRF_SUCCESS,
          { st with sd_calls := st.sd_calls ++ (ps.take (i + 1)).map (tx_power_call sdk st),
                    max_tx_power := ps.getD i 0 })) ∨
    ((∀ j, j < ps.length → tx_accepts sdk dev st ps j = false) ∧
      (tx_power_loop sdk dev ps e st).2 =
        { st with sd_calls := st.sd_calls ++ ps.map (tx_power_call sdk st) } ∧
      (ps ≠ [] → (tx_power_loop sdk dev ps e st).1 ≠ NRF_SUCCESS) ∧
      (e ≠ NRF_SUCCESS → (tx_power_loop sdk dev ps e st).1 ≠ NRF_SUCCESS)) := by
  induction ps with
  | nil =>
    intro e st
    right
    refine ⟨fun j hj => by simp at hj, ?_, fun h => absurd rfl h, fun h => h⟩
    cases st
    simp [tx_power_loop]
  | cons p ps ih =>
    intro e st
    by_cases hacc : (sd_ask dev (tx_power_call sdk st p) st).err_code = NRF_SUCCESS
    · left
      refine ⟨0, by simp, fun j hj => by omega, ?_, ?_⟩
      · rw [tx_accepts_zero]; simpa using hacc
      · simp only [tx_power_loop, hacc, if_true, sd_log]
        simp
    · have h0 : tx_accepts sdk dev st (p :: ps) 0 = false := by
        rw [tx_accepts_zero]; simpa using hacc
      have hstep : tx_power_loop sdk dev (p :: ps) e st =
          tx_power_loop sdk dev ps (sd_ask dev (tx_power_call sdk st p) st).err_code
            (sd_log (tx_power_call sdk st p) st) := by
        simp only [tx_power_loop, hacc, if_false]
      rcases ih (sd_ask dev (tx_power_call sdk st p) st).err_code
          (sd_log (tx_power_call sdk st p) st) with ⟨i, hi, hrej, hok, heq⟩ | ⟨hrej, hst, _, hne⟩
      · left
        refine ⟨i + 1, by simp; omega, ?_, ?_, ?_⟩
        · intro j hj
          cases j with
          | zero => exact h0
          | succ j => rw [tx_accepts_succ]; exact hrej j (by omega)
        · rw [tx_accepts_succ]; exact hok
        · have e1 : tx_power_call sdk (sd_log (tx_power_call sdk st p) st)
              = tx_power_call sdk st := rfl
          rw [hstep, heq, e1]
          simp [sd_log]
      · right
        refine ⟨?_, ?_, fun _ => ?_, fun _ => ?_⟩
        · intro j hj
          cases j with
          | zero => exact h0
          | succ j => rw [tx_accepts_succ]; exact hrej j (by simpa using hj)
        · have e1 : tx_power_call sdk (sd_log (tx_power_call sdk st p) st)
              = tx_power_call sdk st := rfl
          rw [hstep, hst, e1]
          simp [sd_log]
        · rw [hstep]; exact hne hacc
        · rw [hstep]; exact hne hacc

theorem tx_power_candidates_desc : ∀ i < 5, ∀ j < 5, i ≤ j →
    tx_power_candidates.getD j 0 ≤ tx_power_candidates.getD i 0 ∧
    tx_power_candidates.getD i 0 ≠ -1 := by
  decide

/-- C14: with the SoftDevice answering each transmit-power request by accept or
reject, a call of `ble_set_max_tx_power` with nothing cached (`max_tx_power`
is `-1`) asks for the candidates 8, 7, 6, 5, 4 in that order, stops at the first
accepted one and caches it, so that the cached value is the largest accepted
candidate and is not `-1`; if no candidate is accepted it has asked for all five
and the call is fatal; a call with a cached value makes exactly one request,
with that value, and keeps the cache. -/
theorem C14_tx_power_negotiation (sdk : Nat) (dev : SoftDevice) (st : State) :
    (st.max_tx_power = -1 →
      (∀ i, i < 5 → (∀ j, j < i → tx_accepts sdk dev st tx_power_candidates j = false) →
        tx_accepts sdk dev st tx_power_candidates i = true →
        ble_set_max_tx_power sdk dev st = Outcome.done ()
          { st with
            sd_calls := st.sd_calls ++
              (tx_power_candidates.take (i + 1)).map (tx_power_call sdk st),
            max_tx_power := tx_power_candidates.getD i 0 } ∧
        tx_power_candidates.getD i 0 ≠ -1 ∧
        (∀ j, j < 5 → tx_accepts sdk dev st tx_power_candidates j = true →
          tx_power_candidates.getD j 0 ≤ tx_power_candidates.getD i 0)) ∧
      ((∀ j, j < 5 → tx_accepts sdk dev st tx_power_candidates j = false) →
        ∃ e, e ≠ NRF_SUCCESS ∧
          ble_set_max_tx_power sdk dev st = Outcome.fault e
            { st with
              sd_calls := st.sd_calls ++ tx_power_candidates.map (tx_power_call sdk st) })) ∧
    (st.max_tx_power ≠ -1 →
      (ble_set_max_tx_power sdk dev st).state =
        { st with sd_calls := st.sd_calls ++ [tx_power_call sdk st st.max_tx_power] } ∧
      ((ble_set_max_tx_power sdk dev st).completed = true ↔
        (sd_ask dev (tx_power_call sdk st st.max_tx_power) st).err_code = NRF_SUCCESS)) := by
  have hlen : tx_power_candidates.length = 5 := rfl
  have hdef : ble_set_max_tx_power sdk dev st =
      if st.max_tx_power = -1 then
        (if (tx_power_loop sdk dev tx_power_candidates 0 st).2.max_tx_power = -1 then
          APP_ERROR_CHECK (tx_power_loop sdk dev tx_power_candidates 0 st).1
            (tx_power_loop sdk dev tx_power_candidates 0 st).2 (Outcome.done ())
        else Outcome.done () (tx_power_loop sdk dev tx_power_candidates 0 st).2)
      else
        APP_ERROR_CHECK (sd_ask dev (tx_power_call sdk st st.max_tx_power) st).err_code
          (sd_log (tx_power_call sdk st st.max_tx_power) st) (Outcome.done ()) := rfl
  refine ⟨fun hmax => ⟨?_, ?_⟩, fun hmax => ?_⟩
  · intro i hi hrej hacc
    have hd := tx_power_candidates_desc i hi
    refine ⟨?_, (hd i hi (Nat.le_refl i)).2, ?_⟩
    · rcases tx_power_loop_spec sdk dev tx_power_candidates 0 st with
        ⟨i2, hi2, hrej2, hacc2, heq⟩ | ⟨hall, _⟩
      · have hii : i2 = i := by
          rcases Nat.lt_trichotomy i2 i with h | h | h
          · rw [hrej i2 h] at hacc2; exact absurd hacc2 (by simp)
          · exact h
          · rw [hrej2 i h] at hacc; exact absurd hacc (by simp)
        subst hii
        rw [hdef, if_pos hmax, heq]
        simp only []
        rw [if_neg (hd i2 hi (Nat.le_refl i2)).2]
      · rw [hall i (by omega)] at hacc; exact absurd hacc (by simp)
    · intro j hj haj
      have hij : i ≤ j := by
        by_contra hlt
        rw [hrej j (by omega)] at haj
        exact absurd haj (by simp)
      exact (hd j hj hij).1
  · intro hall
    rcases tx_power_loop_spec sdk dev tx_power_candidates 0 st with
      ⟨i2, hi2, _, hacc2, _⟩ | ⟨_, hst, hne, _⟩
    · rw [hall i2 (by omega)] at hacc2; exact absurd hacc2 (by simp)
    · refine ⟨(tx_power_loop sdk dev tx_power_candidates 0 st).1, hne (by decide), ?_⟩
      rw [hdef, if_pos hmax, hst]
      simp only []
      rw [if_pos hmax]
      unfold APP_ERROR_CHECK
      rw [if_pos (hne (by decide))]
  · rw [hdef, if_neg hmax]
    unfold APP_ERROR_CHECK
    by_cases h : (sd_ask dev (tx_power_call sdk st st.max_tx_power) st).err_code = NRF_SUCCESS
    · rw [if_neg (by simpa using h)]
      exact ⟨rfl, by simp [Outcome.completed, h]⟩
    · rw [if_pos h]
      exact ⟨rfl, by simp [Outcome.completed, h]⟩

/-- Witness for C14: a SoftDevice that rejects 8 and 7 and accepts 6 (SDK 15),
from the initial state: the first call asks for 8, 7, 6 and caches 6, the second
call asks once for 6; when everything is rejected the first call is fatal. -/
theorem C14_tx_power_negotiation_witness :
    ((ble_set_max_tx_power 15 (sd_tx_limit 6) initial_state).state.sd_calls =
        [sd_call.sd_ble_gap_tx_power_set (some 0xFF) 8,
         sd_call.sd_ble_gap_tx_power_set (some 0xFF) 7,
         sd_call.sd_ble_gap_tx_power_set (some 0xFF) 6] ∧
      (ble_set_max_tx_power 15 (sd_tx_limit 6) initial_state).state.max_tx_power = 6 ∧
      (ble_set_max_tx_power 15 (sd_tx_limit 6)
        (ble_set_max_tx_power 15 (sd_tx_limit 6) initial_state).state).state.sd_calls =
        [sd_call.sd_ble_gap_tx_power_set (some 0xFF) 8,
         sd_call.sd_ble_gap_tx_power_set (some 0xFF) 7,
         sd_call.sd_ble_gap_tx_power_set (some 0xFF) 6,
         sd_call.sd_ble_gap_tx_power_set (some 0xFF) 6] ∧
      (ble_set_max_tx_power 15 (sd_tx_limit 3) initial_state).completed = false) ∧
    ((initial_state.max_tx_power = -1 →
      (∀ i, i < 5 →
        (∀ j, j < i → tx_accepts 15 (sd_tx_limit 6) initial_state tx_power_candidates j
          = false) →
        tx_accepts 15 (sd_tx_limit 6) initial_state tx_power_candidates i = true →
        ble_set_max_tx_power 15 (sd_tx_limit 6) initial_state = Outcome.done ()
          { initial_state with
            sd_calls := initial_state.sd_calls ++
              (tx_power_candidates.take (i + 1)).map (tx_power_call 15 initial_state),
            max_tx_power := tx_power_candidates.getD i 0 } ∧
        tx_power_candidates.getD i 0 ≠ -1 ∧
        (∀ j, j < 5 → tx_accepts 15 (sd_tx_limit 6) initial_state tx_power_candidates j
            = true →
          tx_power_candidates.getD j 0 ≤ tx_power_candidates.getD i 0)) ∧
      ((∀ j, j < 5 → tx_accepts 15 (sd_tx_limit 6) initial_state tx_power_candidates j
          = false) →
        ∃ e, e ≠ NRF_SUCCESS ∧
          ble_set_max_tx_power 15 (sd_tx_limit 6) initial_state = Outcome.fault e
            { initial_state with
              sd_calls := initial_state.sd_calls ++
                tx_power_candidates.map (tx_power_call 15 initial_state) })) ∧
    (initial_state.max_tx_power ≠ -1 →
      (ble_set_max_tx_power 15 (sd_tx_limit 6) initial_state).state =
        { initial_state with
          sd_calls := initial_state.sd_calls ++
            [tx_power_call 15 initial_state initial_state.max_tx_power] } ∧
      ((ble_set_max_tx_power 15 (sd_tx_limit 6) initial_state).completed = true ↔
        (sd_ask (sd_tx_limit 6) (tx_power_call 15 initial_state initial_state.max_tx_power)
          initial_state).err_code = NRF_SUCCESS))) :=
  ⟨by decide, C14_tx_power_negotiation 15 (sd_tx_limit 6) initial_state⟩

/-! ## Requests of the switch to broadcasting -/

theorem issues_andThen {α β : Type} (s : State) (o : Outcome α) (k : α → State → Outcome β)
    (l1 l2 : List sd_call) (ho : issues s o l1)
    (hk : ∀ v s1, o = Outcome.done v s1 → issues s1 (k v s1) l2) :
    issues s (o.andThen k) (l1 ++ l2) := by
  cases o with
  | done v s1 =>
    obtain ⟨n1, t1, e1, x1, c1⟩ := ho
    obtain ⟨n2, t2, e2, x2, c2⟩ := hk v s1 rfl
    have ht1 : t1 = [] := c1 rfl
    subst ht1
    simp only [List.append_nil] at x1
    subst x1
    refine ⟨l1 ++ n2, t2, ?_, ?_, c2⟩
    · simp only [Outcome.andThen]
      rw [e2]
      simp only [Outcome.state] at e1
      rw [e1, List.append_assoc]
    · rw [x2, List.append_assoc]
  | fault e s1 =>
    obtain ⟨n1, t1, e1, x1, _⟩ := ho
    refine ⟨n1, t1 ++ l2, e1, ?_, ?_⟩
    · rw [x1, List.append_assoc]
    · intro h; simp [Outcome.andThen, Outcome.completed] at h

theorem issues_one {α : Type} (s : State) (o : Outcome α) (c : sd_call)
    (h : o.state.sd_calls = s.sd_calls ++ [c]) : issues s o [c] :=
  ⟨[c], [], h, rfl, fun _ => rfl⟩

theorem issues_none {α : Type} (s : State) (o : Outcome α)
    (h : o.state.sd_calls = s.sd_calls) : issues s o [] :=
  ⟨[], [], by simp [h], rfl, fun _ => rfl⟩

theorem check_state {α : Type} (e : Nat) (t : State) (v : α) :
    (APP_ERROR_CHECK e t (Outcome.done v)).state = t := by
  unfold APP_ERROR_CHECK
  split <;> rfl

theorem stop_advertising_issues (sdk : Nat) (dev : SoftDevice) (st : State) :
    issues st (ble_stop_advertising sdk dev st) (stop_requests sdk st) ∧
    (ble_stop_advertising sdk dev st).state.adv_handle = st.adv_handle := by
  unfold ble_stop_advertising stop_requests adv_stop_if_configured
  by_cases hs : sdk ≥ 15
  · rw [if_pos hs, if_pos hs]
    by_cases hh : st.adv_handle ≠ BLE_GAP_ADV_SET_HANDLE_NOT_SET
    · rw [if_pos hh, if_pos hh]
      simp only []
      split
      · exact ⟨issues_one _ _ _ (by rw [check_state]; rfl), by rw [check_state]; rfl⟩
      · exact ⟨issues_one _ _ _ rfl, rfl⟩
    · rw [if_neg hh, if_neg hh]
      exact ⟨issues_none _ _ rfl, rfl⟩
  · rw [if_neg hs, if_neg hs]
    simp only []
    split
    · exact ⟨issues_one _ _ _ (by rw [check_state]; rfl), by rw [check_state]; rfl⟩
    · exact ⟨issues_one _ _ _ rfl, rfl⟩

theorem advertising_init_issues (sdk : Nat) (dev : SoftDevice) (st : State) :
    issues st (ble_advertising_init sdk dev st) [init_request sdk st] := by
  unfold ble_advertising_init init_request offline_adv_params
  by_cases hs : sdk ≥ 15
  · simp only [if_pos hs]
    exact issues_one _ _ _ (by rw [check_state]; rfl)
  · simp only [if_neg hs]
    exact issues_one _ _ _ rfl

theorem switch_to_offline_eq (sdk : Nat) (dev : SoftDevice) (st : State) :
    ble_switch_to_offline_mode sdk dev st =
      (disconnect_if_connected dev st).andThen fun _ st =>
      (ble_stop_advertising sdk dev st).andThen fun _ st =>
      ble_advertising_init sdk dev
        { st with m_current_mode := ble_operating_mode_t.BLE_MODE_OFFLINE } := rfl

theorem disconnect_if_connected_facts (dev : SoftDevice) (st : State) :
    (disconnect_if_connected dev st).state.sd_calls = st.sd_calls ++
      (if st.m_conn_handle ≠ BLE_CONN_HANDLE_INVALID then
        [sd_call.sd_ble_gap_disconnect st.m_conn_handle
          BLE_HCI_REMOTE_USER_TERMINATED_CONNECTION]
       else []) ∧
    (disconnect_if_connected dev st).state.adv_handle = st.adv_handle := by
  unfold disconnect_if_connected APP_ERROR_CHECK
  by_cases hc : st.m_conn_handle ≠ BLE_CONN_HANDLE_INVALID
  · simp only [if_pos hc]
    split_ifs <;> simp [Outcome.andThen, Outcome.state, sd_log]
  · simp only [if_neg hc]
    simp [Outcome.state]

theorem disconnect_if_connected_issues (dev : SoftDevice) (st : State) :
    issues st (disconnect_if_connected dev st)
      (if st.m_conn_handle ≠ BLE_CONN_HANDLE_INVALID then
        [sd_call.sd_ble_gap_disconnect st.m_conn_handle
          BLE_HCI_REMOTE_USER_TERMINATED_CONNECTION]
       else []) :=
  ⟨_, [], (disconnect_if_connected_facts dev st).1, by simp, fun _ => rfl⟩

/-- The calls of `ble_switch_to_offline_mode` are those of
`offline_switch_requests`, in that order. -/
theorem switch_to_offline_issues (sdk : Nat) (dev : SoftDevice) (st : State) :
    issues st (ble_switch_to_offline_mode sdk dev st) (offline_switch_requests sdk st) := by
  rw [switch_to_offline_eq]
  unfold offline_switch_requests
  apply issues_andThen
  · exact disconnect_if_connected_issues dev st
  · intro _ s1 h1
    have hh : s1.adv_handle = st.adv_handle := by
      have := (disconnect_if_connected_facts dev st).2
      rw [h1] at this
      exact this
    have e1 : stop_requests sdk st = stop_requests sdk s1 := by
      unfold stop_requests; rw [hh]
    have hstop := stop_advertising_issues sdk dev s1
    rw [e1]
    apply issues_andThen
    · exact hstop.1
    · intro _ s2 h2
      have h2h : s2.adv_handle = st.adv_handle := by
        have := hstop.2
        rw [h2] at this
        rw [← hh]
        exact this
      have e2 : init_request sdk st =
          init_request sdk
            { s2 with m_current_mode := ble_operating_mode_t.BLE_MODE_OFFLINE } := by
        unfold init_request; simp only [h2h]
      rw [e2]
      exact advertising_init_issues sdk dev _

/-- C13, the code at the failing input: built for SDK 15, the switch from a state
with an active connection (handle 3) and a configured advertising set (handle
0), every request accepted, returns after three requests, disconnect, stop and
configure of the non-connectable parameters, and none of its requests is a
start-advertising request; the claim has a start-advertising request follow the
configuration. Built for SDK 12 the same switch ends with the
start-advertising request. -/
theorem C13_switch_makes_no_start_request :
    (ble_switch_to_offline_mode 15 sd_accept_all connected_sample_state).completed = true ∧
    (ble_switch_to_offline_mode 15 sd_accept_all connected_sample_state).state.sd_calls =
      [sd_call.sd_ble_gap_disconnect 3 BLE_HCI_REMOTE_USER_TERMINATED_CONNECTION,
       sd_call.sd_ble_gap_adv_stop (some 0),
       sd_call.sd_ble_gap_adv_set_configure 0 none
         { type := adv_type_t.BLE_GAP_ADV_TYPE_NONCONNECTABLE_NONSCANNABLE_UNDIRECTED,
           interval := 1600, duration := 0 }] ∧
    ((ble_switch_to_offline_mode 15 sd_accept_all connected_sample_state).state.sd_calls.any
      is_adv_start) = false ∧
    (ble_switch_to_offline_mode 12 sd_accept_all connected_sample_state).state.sd_calls =
      [sd_call.sd_ble_gap_disconnect 3 BLE_HCI_REMOTE_USER_TERMINATED_CONNECTION,
       sd_call.sd_ble_gap_adv_stop none,
       sd_call.sd_ble_gap_adv_start_params
         { type := adv_type_t.BLE_GAP_ADV_TYPE_ADV_NONCONN_IND,
           interval := 1600, duration := 0 }] := by
  decide

/-! ## Accepting a key in provisioning mode -/

theorem start_config_advertising_fields (sdk : Nat) (dev : SoftDevice) (st : State) :
    (ble_start_config_advertising sdk dev st).state.m_current_mode
      = ble_operating_mode_t.BLE_MODE_CONFIG ∧
    (ble_start_config_advertising sdk dev st).state.adv_params = st.adv_params := by
  have h : radio_only { st with m_current_mode := ble_operating_mode_t.BLE_MODE_CONFIG }
      (ble_start_config_advertising sdk dev st).state := by
    unfold ble_start_config_advertising
    simp only []
    split
    · apply radio_only_andThen
      · exact radio_only_adv_stop dev _
      · intro _ s1 h1
        apply radio_only_check_of
        · exact radio_only_trans h1
            (radio_only_trans (radio_only_sd_log _ s1) (radio_only_set_handle _ _))
        · intro h3
          exact radio_only_check_of _ _ _ _ (radio_only_trans h3 (radio_only_sd_log _ _))
            (fun h4 => h4)
    · apply radio_only_check_of
      · exact radio_only_sd_log _ _
      · intro h3
        exact radio_only_check_of _ _ _ _ (radio_only_trans h3 (radio_only_sd_log _ _))
          (fun h4 => h4)
  have hf := radio_only_fields h
  exact ⟨hf.2.2.2.2.1, hf.2.2.2.2.2.2.2.1⟩

/-- The calls made by `ble_set_advertisement_key` submit, whenever they submit
advertising parameters, the global `adv_params` of the starting state. -/
theorem set_advertisement_key_log_params (sdk : Nat) (dev : SoftDevice) (key : List Nat)
    (st : State) :
    log_ext (params_call_ok st.adv_params) st
      (ble_set_advertisement_key sdk dev key st).state := by
  unfold ble_set_advertisement_key
  refine log_ext_andThen_inv (fun s => radio_only st s) st _ _ ?_ ?_ ?_
  · split
    · exact radio_only_adv_stop dev st
    · exact radio_only_refl st
  · split
    · exact log_ext_adv_stop dev st (fun _ => rfl)
    · exact log_ext_refl _ st
  · intro _ s1 hr1 hl1
    simp only []
    have hd := radio_only_derive key hr1
    refine log_ext_andThen_inv (fun s => radio_only (derive_identity key st) s) st _ _ ?_ ?_ ?_
    · exact radio_only_trans hd (radio_only_set_mac_address _ _ _ _)
    · exact log_ext_trans hl1 (log_ext_trans (log_ext_same _ rfl)
        (log_ext_set_mac_address _ _ _ _ (fun _ => rfl) (fun _ => rfl)))
    · intro _ s2 hr2 hl2
      have hp : s2.adv_params = st.adv_params := (radio_only_fields hr2).2.2.2.2.2.2.2.1
      apply log_ext_andThen
      · refine log_ext_trans hl2 (log_ext_adv_data_submit _ _ _ ?_ (fun _ _ => rfl) rfl)
        simp [params_call_ok, params_of, hp]
      · intro _ s3 hl3
        apply log_ext_andThen
        · exact log_ext_trans hl3 (log_ext_set_max_tx_power _ _ _ (fun _ _ => rfl))
        · intro _ s4 hl4
          exact hl4

theorem set_advertisement_key_log_of (P : sd_call → Bool) (sdk : Nat) (dev : SoftDevice)
    (key : List Nat) (st : State) (h1 : ∀ h, P (sd_call.sd_ble_gap_adv_stop h) = true)
    (h2 : ∀ a, P (sd_call.sd_ble_gap_addr_set a) = true)
    (h3 : ∀ a, P (sd_call.sd_ble_gap_address_set a) = true)
    (h4 : ∀ h p, P (sd_call.sd_ble_gap_tx_power_set h p) = true)
    (hsub : ∀ s2, radio_only (derive_identity key st) s2 →
      log_ext P s2 (adv_data_submit sdk dev s2).state) :
    log_ext P st (ble_set_advertisement_key sdk dev key st).state := by
  unfold ble_set_advertisement_key
  refine log_ext_andThen_inv (fun s => radio_only st s) st _ _ ?_ ?_ ?_
  · split
    · exact radio_only_adv_stop dev st
    · exact radio_only_refl st
  · split
    · exact log_ext_adv_stop dev st h1
    · exact log_ext_refl _ st
  · intro _ s1 hr1 hl1
    simp only []
    have hd := radio_only_derive key hr1
    refine log_ext_andThen_inv (fun s => radio_only (derive_identity key st) s) st _ _ ?_ ?_ ?_
    · exact radio_only_trans hd (radio_only_set_mac_address _ _ _ _)
    · exact log_ext_trans hl1 (log_ext_trans (log_ext_same _ rfl)
        (log_ext_set_mac_address _ _ _ _ h2 h3))
    · intro _ s2 hr2 hl2
      apply log_ext_andThen
      · exact log_ext_trans hl2 (hsub s2 hr2)
      · intro _ s3 hl3
        apply log_ext_andThen
        · exact log_ext_trans hl3 (log_ext_set_max_tx_power _ _ _ h4)
        · intro _ s4 hl4
          exact hl4

theorem adv_data_submit_legacy_log (sdk : Nat) (dev : SoftDevice) (st : State)
    (hs : sdk < 15) :
    log_ext (fun c => (params_of c).isNone) st (adv_data_submit sdk dev st).state := by
  unfold adv_data_submit
  rw [if_neg (by omega)]
  have h1 : log_ext (fun c => (params_of c).isNone) st
      (sd_log (sd_call.sd_ble_gap_adv_data_set st.offline_finding_adv
        (u8 st.offline_finding_adv_len)) st) := log_ext_sd_log _ st rfl
  exact log_ext_check _ _ _ _ h1 h1

theorem adv_data_submit_configure (sdk : Nat) (dev : SoftDevice) (st : State)
    (hs : sdk ≥ 15) :
    ∃ tail, (adv_data_submit sdk dev st).state.sd_calls = st.sd_calls ++
      sd_call.sd_ble_gap_adv_set_configure st.adv_handle
        (some (st.offline_finding_adv, st.offline_finding_adv_len % 65536)) st.adv_params
        :: tail := by
  simp only [adv_data_submit, if_pos hs, APP_ERROR_CHECK]
  split
  · exact ⟨[], rfl⟩
  · split
    · exact ⟨[_], sd_log_twice _ _ _ _⟩
    · exact ⟨[_], sd_log_twice _ _ _ _⟩

/-- On SDK 15 and later, a run of `ble_set_advertisement_key` that returns has
made a configure request that submits the global `adv_params`. -/
theorem set_advertisement_key_configures (sdk : Nat) (dev : SoftDevice) (key : List Nat)
    (st : State) (hs : sdk ≥ 15) :
    post (fun s => ∃ mid c tail, s.sd_calls = st.sd_calls ++ (mid ++ c :: tail) ∧
        params_of c = some st.adv_params)
      (ble_set_advertisement_key sdk dev key st) := by
  unfold ble_set_advertisement_key
  rw [if_pos hs]
  refine post_andThen
    (fun s => radio_only st s ∧ log_ext (fun _ => true) st s) _ _ _ ?_ ?_
  · intro _
    exact ⟨radio_only_adv_stop dev st, log_ext_adv_stop dev st (fun _ => rfl)⟩
  · intro _ s1 h1
    simp only []
    have hd := radio_only_derive key h1.1
    refine post_andThen
      (fun s => radio_only (derive_identity key st) s ∧ log_ext (fun _ => true) st s)
      _ _ _ ?_ ?_
    · intro _
      exact ⟨radio_only_trans hd (radio_only_set_mac_address _ _ _ _),
        log_ext_trans h1.2 (log_ext_trans (log_ext_same _ rfl)
          (log_ext_set_mac_address _ _ _ _ (fun _ => rfl) (fun _ => rfl)))⟩
    · intro _ s2 h2
      have hp : s2.adv_params = st.adv_params :=
        (radio_only_fields h2.1).2.2.2.2.2.2.2.1
      refine post_andThen
        (fun s => ∃ mid c tail, s.sd_calls = st.sd_calls ++ (mid ++ c :: tail) ∧
          params_of c = some st.adv_params) _ _ _ ?_ ?_
      · intro _
        obtain ⟨mid, e2, _⟩ := h2.2
        obtain ⟨tail, e3⟩ := adv_data_submit_configure sdk dev s2 hs
        refine ⟨mid, sd_call.sd_ble_gap_adv_set_configure s2.adv_handle
          (some (s2.offline_finding_adv, s2.offline_finding_adv_len % 65536)) s2.adv_params,
          tail, ?_, ?_⟩
        · rw [e3, e2, List.append_assoc]
        · simp [params_of, hp]
      · intro _ s3 h3
        refine post_andThen
          (fun s => ∃ mid c tail, s.sd_calls = st.sd_calls ++ (mid ++ c :: tail) ∧
            params_of c = some st.adv_params) _ _ _ ?_ ?_
        · intro _
          obtain ⟨mid, c, tail, e3, hc⟩ := h3
          obtain ⟨new, e4, _⟩ :=
            @log_ext_set_max_tx_power (fun _ => true) sdk dev s3 (fun _ _ => rfl)
          refine ⟨mid, c, tail ++ new, ?_, hc⟩
          rw [e4, e3]
          simp [List.append_assoc]
        · intro _ s4 h4
          exact post_done _ _ h4

/-- C12 fails as stated: booted into provisioning on SDK 15 (every call
accepted), `ble_set_advertisement_key` returns with the mode still
`BLE_MODE_CONFIG`, and the parameters of its configure request are not of a
connectable type: zero-initialised when `ble_advertising_init` has not run,
non-connectable/non-scannable when it has. -/
theorem C12_params_counterexample :
    ((ble_set_advertisement_key 15 sd_accept_all sample_key
        provisioning_after_init_state).completed = true ∧
      (ble_set_advertisement_key 15 sd_accept_all sample_key
        provisioning_after_init_state).state.m_current_mode
        = ble_operating_mode_t.BLE_MODE_CONFIG ∧
      (((ble_set_advertisement_key 15 sd_accept_all sample_key
          provisioning_after_init_state).state.sd_calls.drop
          provisioning_after_init_state.sd_calls.length).map
          (fun c => (params_of c).map (fun p => (p.type, is_connectable p.type))))
        = [none, none,
           some (adv_type_t.BLE_GAP_ADV_TYPE_NONCONNECTABLE_NONSCANNABLE_UNDIRECTED, false),
           none, none]) ∧
    ((ble_set_advertisement_key 15 sd_accept_all sample_key
        provisioning_sample_state).completed = true ∧
      (((ble_set_advertisement_key 15 sd_accept_all sample_key
          provisioning_sample_state).state.sd_calls.drop
          provisioning_sample_state.sd_calls.length).map
          (fun c => (params_of c).map (fun p => (p.type, is_connectable p.type))))
        = [none, none, some (adv_type_t.ADV_TYPE_ZERO, false), none, none]) := by
  decide

/-- C12 (amended): in the state `ble_start_config_advertising` leaves, the mode
is `BLE_MODE_CONFIG` and the global `adv_params` is what it was before the call;
`ble_set_advertisement_key` from there ends, for every key and whatever the
SoftDevice answers, with the mode still `BLE_MODE_CONFIG`; every advertising
parameter block it submits is that global `adv_params`; on SDKs before 15 it
submits none, on SDK 15 and later a run that returns has submitted it. Those
parameters are not connectable: zero-initialised at boot, and
non-connectable after `ble_advertising_init`. -/
theorem C12_key_in_provisioning (sdk : Nat) (dev : SoftDevice) (key : List Nat)
    (st0 : State) :
    ((ble_start_config_advertising sdk dev st0).state.m_current_mode
        = ble_operating_mode_t.BLE_MODE_CONFIG ∧
      (ble_start_config_advertising sdk dev st0).state.adv_params = st0.adv_params) ∧
    (ble_set_advertisement_key sdk dev key
        (ble_start_config_advertising sdk dev st0).state).state.m_current_mode
      = ble_operating_mode_t.BLE_MODE_CONFIG ∧
    (∃ new,
      (ble_set_advertisement_key sdk dev key
        (ble_start_config_advertising sdk dev st0).state).state.sd_calls
        = (ble_start_config_advertising sdk dev st0).state.sd_calls ++ new ∧
      (∀ c ∈ new, ∀ p, params_of c = some p → p = st0.adv_params) ∧
      (sdk < 15 → ∀ c ∈ new, params_of c = none) ∧
      (sdk ≥ 15 →
        (ble_set_advertisement_key sdk dev key
          (ble_start_config_advertising sdk dev st0).state).completed = true →
        ∃ c ∈ new, params_of c = some st0.adv_params)) ∧
    (is_connectable initial_state.adv_params.type = false ∧
      is_connectable (ble_advertising_init sdk dev st0).state.adv_params.type = false) := by
  have hst := start_config_advertising_fields sdk dev st0
  refine ⟨hst, ?_, ?_, rfl, ?_⟩
  · rcases set_advertisement_key_frame_any sdk dev key
        (ble_start_config_advertising sdk dev st0).state with h | h
    · rw [(radio_only_fields h).2.2.2.2.1]; exact hst.1
    · rw [(radio_only_fields h).2.2.2.2.1]; exact hst.1
  · obtain ⟨new, e, hp⟩ := set_advertisement_key_log_params sdk dev key
      (ble_start_config_advertising sdk dev st0).state
    refine ⟨new, e, ?_, ?_, ?_⟩
    · intro c hc p hcp
      have h := hp c hc
      simp only [params_call_ok, hcp, decide_eq_true_eq] at h
      rw [h, hst.2]
    · intro hs c hc
      obtain ⟨new2, e2, hp2⟩ := set_advertisement_key_log_of
        (fun c => (params_of c).isNone) sdk dev key
        (ble_start_config_advertising sdk dev st0).state (fun _ => rfl) (fun _ => rfl)
        (fun _ => rfl) (fun _ _ => rfl) (fun s2 _ => adv_data_submit_legacy_log sdk dev s2 hs)
      have hn : new = new2 := List.append_cancel_left (e.symm.trans e2)
      have h := hp2 c (by rw [← hn]; exact hc)
      simpa using h
    · intro hs hc
      obtain ⟨mid, c, tail, e2, hcp⟩ := set_advertisement_key_configures sdk dev key
        (ble_start_config_advertising sdk dev st0).state hs hc
      have hn : new = mid ++ c :: tail := List.append_cancel_left (e.symm.trans e2)
      exact ⟨c, by rw [hn]; simp, by rw [hcp, hst.2]⟩
  · unfold ble_advertising_init APP_ERROR_CHECK
    simp only []
    split
    · split <;> rfl
    · rfl

/-! ## Initialisation of the provisioning service -/

theorem config_service_init_unfold (dev : GattServer) (log : List gatts_call)
    (svc : config_service_t) (init : config_service_init_t) :
    ((config_service_init dev log (some svc) (some init)).ret,
      (config_service_init dev log (some svc) (some init)).calls) =
      if init_answer dev log svc init 0 ≠ NRF_SUCCESS then
        (init_answer dev log svc init 0, log ++ (init_calls dev log svc init).take 1)
      else if init_answer dev log svc init 1 ≠ NRF_SUCCESS then
        (init_answer dev log svc init 1, log ++ (init_calls dev log svc init).take 2)
      else if init_answer dev log svc init 2 ≠ NRF_SUCCESS then
        (init_answer dev log svc init 2, log ++ (init_calls dev log svc init).take 3)
      else if init_answer dev log svc init 3 ≠ NRF_SUCCESS then
        (init_answer dev log svc init 3, log ++ (init_calls dev log svc init).take 4)
      else (NRF_SUCCESS, log ++ init_calls dev log svc init) := by
  simp only [config_service_init, key_write_char_add, key_count_char_add, init_answer,
    init_calls, init_service, key_write_char_call, key_count_char_call]
  simp only [List.take, List.getD_cons_zero, List.getD_cons_succ, List.append_nil,
    List.append_assoc, List.cons_append, List.nil_append]
  split_ifs <;> rfl

/-- C15: `config_service_init` returns `NRF_ERROR_NULL` (which is not
`NRF_SUCCESS`), makes no SoftDevice call and leaves the service as it is, when
the service pointer or the configuration pointer is `NULL`; otherwise its calls
are, in this order, register-UUID-base, add-service, add-Key-Write,
add-Key-Count; it returns the error code of the first step that fails, having
made no later call, and returns `NRF_SUCCESS` exactly when all four steps
succeed. -/
theorem C15_config_service_init (dev : GattServer) (log : List gatts_call)
    (svc : config_service_t) (init : config_service_init_t)
    (p_service : Option config_service_t) (p_init : Option config_service_init_t) :
    (NRF_ERROR_NULL ≠ NRF_SUCCESS ∧
      (p_service = none ∨ p_init = none →
        config_service_init dev log p_service p_init =
          { ret := NRF_ERROR_NULL, service := p_service, calls := log })) ∧
    ((init_calls dev log svc init).map gatts_step = [1, 2, 3, 4] ∧
      (∀ i, i < 4 → (∀ j, j < i → init_answer dev log svc init j = NRF_SUCCESS) →
        init_answer dev log svc init i ≠ NRF_SUCCESS →
        (config_service_init dev log (some svc) (some init)).ret
          = init_answer dev log svc init i ∧
        (config_service_init dev log (some svc) (some init)).calls
          = log ++ (init_calls dev log svc init).take (i + 1)) ∧
      ((∀ j, j < 4 → init_answer dev log svc init j = NRF_SUCCESS) →
        (config_service_init dev log (some svc) (some init)).ret = NRF_SUCCESS ∧
        (config_service_init dev log (some svc) (some init)).calls
          = log ++ init_calls dev log svc init) ∧
      ((config_service_init dev log (some svc) (some init)).ret = NRF_SUCCESS ↔
        ∀ j, j < 4 → init_answer dev log svc init j = NRF_SUCCESS)) := by
  have h := config_service_init_unfold dev log svc init
  have hfail : ∀ i, i < 4 → (∀ j, j < i → init_answer dev log svc init j = NRF_SUCCESS) →
      init_answer dev log svc init i ≠ NRF_SUCCESS →
      (config_service_init dev log (some svc) (some init)).ret
        = init_answer dev log svc init i ∧
      (config_service_init dev log (some svc) (some init)).calls
        = log ++ (init_calls dev log svc init).take (i + 1) := by
    intro i hi hprev hne
    have hi4 : i = 0 ∨ i = 1 ∨ i = 2 ∨ i = 3 := by omega
    rcases hi4 with rfl | rfl | rfl | rfl
    · rw [if_pos hne] at h
      exact ⟨congrArg Prod.fst h, congrArg Prod.snd h⟩
    · rw [if_neg (not_not.mpr (hprev 0 (by omega))), if_pos hne] at h
      exact ⟨congrArg Prod.fst h, congrArg Prod.snd h⟩
    · rw [if_neg (not_not.mpr (hprev 0 (by omega))),
        if_neg (not_not.mpr (hprev 1 (by omega))), if_pos hne] at h
      exact ⟨congrArg Prod.fst h, congrArg Prod.snd h⟩
    · rw [if_neg (not_not.mpr (hprev 0 (by omega))),
        if_neg (not_not.mpr (hprev 1 (by omega))),
        if_neg (not_not.mpr (hprev 2 (by omega))), if_pos hne] at h
      exact ⟨congrArg Prod.fst h, congrArg Prod.snd h⟩
  have hall : (∀ j, j < 4 → init_answer dev log svc init j = NRF_SUCCESS) →
      (config_service_init dev log (some svc) (some init)).ret = NRF_SUCCESS ∧
      (config_service_init dev log (some svc) (some init)).calls
        = log ++ init_calls dev log svc init := by
    intro hs
    rw [if_neg (not_not.mpr (hs 0 (by omega))), if_neg (not_not.mpr (hs 1 (by omega))),
      if_neg (not_not.mpr (hs 2 (by omega))), if_neg (not_not.mpr (hs 3 (by omega)))] at h
    exact ⟨congrArg Prod.fst h, congrArg Prod.snd h⟩
  refine ⟨⟨by decide, ?_⟩, rfl, hfail, hall, ?_, fun hs => (hall hs).1⟩
  · intro hn
    rcases hn with hn | hn
    · subst hn; rfl
    · subst hn
      cases p_service <;> rfl
  · intro hret
    by_contra hnot
    have hex : ∃ i, i < 4 ∧ (∀ j, j < i → init_answer dev log svc init j = NRF_SUCCESS) ∧
        init_answer dev log svc init i ≠ NRF_SUCCESS := by
      by_cases h0 : init_answer dev log svc init 0 = NRF_SUCCESS
      · by_cases h1 : init_answer dev log svc init 1 = NRF_SUCCESS
        · by_cases h2 : init_answer dev log svc init 2 = NRF_SUCCESS
          · by_cases h3 : init_answer dev log svc init 3 = NRF_SUCCESS
            · exfalso
              apply hnot
              intro j hj
              have hj4 : j = 0 ∨ j = 1 ∨ j = 2 ∨ j = 3 := by omega
              rcases hj4 with rfl | rfl | rfl | rfl <;> assumption
            · refine ⟨3, by omega, ?_, h3⟩
              intro j hj
              have hj3 : j = 0 ∨ j = 1 ∨ j = 2 := by omega
              rcases hj3 with rfl | rfl | rfl <;> assumption
          · refine ⟨2, by omega, ?_, h2⟩
            intro j hj
            have hj2 : j = 0 ∨ j = 1 := by omega
            rcases hj2 with rfl | rfl <;> assumption
        · refine ⟨1, by omega, ?_, h1⟩
          intro j hj
          have hj1 : j = 0 := by omega
          subst hj1
          exact h0
      · exact ⟨0, by omega, fun j hj => by omega, h0⟩
    obtain ⟨i, hi, hprev, hne⟩ := hex
    rw [(hfail i hi hprev hne).1] at hret
    exact hne hret

/-- Witness for C15: a SoftDevice that accepts two calls and rejects the third
makes `config_service_init` stop after add-Key-Write with that error; one that
accepts four calls makes it succeed. -/
theorem C15_config_service_init_witness :
    ((config_service_init (gatts_accept_first 2) [] (some config_service_zero)
        (some sample_init)).ret = 4 ∧
      ((config_service_init (gatts_accept_first 2) [] (some config_service_zero)
        (some sample_init)).calls.map gatts_step) = [1, 2, 3] ∧
      (config_service_init (gatts_accept_first 4) [] (some config_service_zero)
        (some sample_init)).ret = NRF_SUCCESS ∧
      ((config_service_init (gatts_accept_first 4) [] (some config_service_zero)
        (some sample_init)).calls.map gatts_step) = [1, 2, 3, 4]) ∧
    ((NRF_ERROR_NULL ≠ NRF_SUCCESS ∧
      ((none : Option config_service_t) = none ∨ some sample_init = none →
        config_service_init (gatts_accept_first 2) [] none (some sample_init) =
          { ret := NRF_ERROR_NULL, service := none, calls := [] })) ∧
    ((init_calls (gatts_accept_first 2) [] config_service_zero sample_init).map gatts_step
        = [1, 2, 3, 4] ∧
      (∀ i, i < 4 →
        (∀ j, j < i → init_answer (gatts_accept_first 2) [] config_service_zero sample_init j
          = NRF_SUCCESS) →
        init_answer (gatts_accept_first 2) [] config_service_zero sample_init i
          ≠ NRF_SUCCESS →
        (config_service_init (gatts_accept_first 2) [] (some config_service_zero)
            (some sample_init)).ret
          = init_answer (gatts_accept_first 2) [] config_service_zero sample_init i ∧
        (config_service_init (gatts_accept_first 2) [] (some config_service_zero)
            (some sample_init)).calls
          = [] ++ (init_calls (gatts_accept_first 2) [] config_service_zero
              sample_init).take (i + 1)) ∧
      ((∀ j, j < 4 → init_answer (gatts_accept_first 2) [] config_service_zero sample_init j
          = NRF_SUCCESS) →
        (config_service_init (gatts_accept_first 2) [] (some config_service_zero)
            (some sample_init)).ret = NRF_SUCCESS ∧
        (config_service_init (gatts_accept_first 2) [] (some config_service_zero)
            (some sample_init)).calls
          = [] ++ init_calls (gatts_accept_first 2) [] config_service_zero sample_init) ∧
      ((config_service_init (gatts_accept_first 2) [] (some config_service_zero)
          (some sample_init)).ret = NRF_SUCCESS ↔
        ∀ j, j < 4 → init_answer (gatts_accept_first 2) [] config_service_zero sample_init j
          = NRF_SUCCESS))) :=
  ⟨by decide, C15_config_service_init (gatts_accept_first 2) [] config_service_zero
    sample_init none (some sample_init)⟩

end HeyStack
